import Mathlib

/-!
# GenericPhysicPropSystem: the physics prop component

A shallow embedding of `UPhysicsPropComponent` (PhysicsPropComponent.cpp / .h) and of the
data declared in PhysicsPropDamageType.h and PropPhysicsImpactData.h.

Conventions of the embedding.

* `float` values are rational numbers (`ℚ`): every finite float is a rational, and the
  arithmetic of the component is read exactly (no rounding, no NaN).
* A pointer is `Option` of the record it points to; the record holds what the component
  reads through the pointer at the time the operation runs.
* Every call the component makes on the body, on an actor, on the world or on itself is
  appended to `Log`; the calls that write a flag the component reads back are also applied
  to the body record (`UStaticMeshComponent.apply`). What the rigid-body solver does with
  velocities and impulses is outside the model.
* Engine numerics that are not rational (square root, normalisation, interpolation,
  rotation to direction) are fields of `FEngine`, a parameter of the operations.
-/

namespace PhysicsProp

/-! ## Engine value types -/

/-- Vector of three floats (engine `FVector`). -/
structure FVector where
  X : ℚ
  Y : ℚ
  Z : ℚ
  deriving DecidableEq

/-- Rotation as pitch, yaw, roll (engine `FRotator`). -/
structure FRotator where
  Pitch : ℚ
  Yaw : ℚ
  Roll : ℚ
  deriving DecidableEq

namespace FVector

/-- The constant `FVector::ZeroVector`. -/
def ZeroVector : FVector := ⟨0, 0, 0⟩

/-- The constant `FVector::UpVector`. -/
def UpVector : FVector := ⟨0, 0, 1⟩

/-- Componentwise sum, `operator+`. -/
def add (a b : FVector) : FVector := ⟨a.X + b.X, a.Y + b.Y, a.Z + b.Z⟩

/-- Componentwise difference, `operator-`. -/
def sub (a b : FVector) : FVector := ⟨a.X - b.X, a.Y - b.Y, a.Z - b.Z⟩

/-- Scaling by a float, `operator*(float)`. -/
def scale (a : FVector) (k : ℚ) : FVector := ⟨a.X * k, a.Y * k, a.Z * k⟩

/-- Squared length, `SizeSquared()`. -/
def SizeSquared (a : FVector) : ℚ := a.X * a.X + a.Y * a.Y + a.Z * a.Z

/-- Squared distance, `FVector::DistSquared`. -/
def DistSquared (a b : FVector) : ℚ := SizeSquared (sub a b)

end FVector

/-- Engine numerics the component calls and that leave the rationals. -/
structure FEngine where
  /-- Float square root, used by `FVector::Size` and `FVector::Distance`. -/
  Sqrt : ℚ → ℚ
  /-- The method `FVector::GetSafeNormal`. -/
  GetSafeNormal : FVector → FVector
  /-- The method `FRotator::Vector`. -/
  RotatorVector : FRotator → FVector
  /-- The function `FMath::VInterpTo (Current, Target, DeltaTime, InterpSpeed)`. -/
  VInterpTo : FVector → FVector → ℚ → ℚ → FVector
  /-- The function `FMath::RInterpTo (Current, Target, DeltaTime, InterpSpeed)`. -/
  RInterpTo : FRotator → FRotator → ℚ → ℚ → FRotator

/-- Length of a vector, `FVector::Size()`. -/
def FEngine.Size (E : FEngine) (a : FVector) : ℚ := E.Sqrt a.SizeSquared

/-- Distance of two points, `FVector::Distance`. -/
def FEngine.Distance (E : FEngine) (a b : FVector) : ℚ := E.Sqrt (FVector.DistSquared a b)

namespace FMath

/-- The function `FMath::Clamp (X, Min, Max)`. -/
def Clamp (x lo hi : ℚ) : ℚ := if x < lo then lo else if x < hi then x else hi

/-- The function `FMath::GetMappedRangeValueClamped`: the position of `v` in the input
range, clamped to [0, 1], is mapped linearly onto the output range. -/
def GetMappedRangeValueClamped (inLo inHi outLo outHi v : ℚ) : ℚ :=
  outLo + (Clamp ((v - inLo) / (inHi - inLo)) 0 1) * (outHi - outLo)

end FMath

/-! ## Engine objects the component points to -/

/-- What the component reads of an actor (`AActor`). -/
structure AActor where
  /-- Identity of the actor (its address). -/
  Id : Nat
  /-- Whether `Cast<APawn>` succeeds on the actor. -/
  IsPawn : Bool
  /-- Result of `GetVelocity()`. -/
  Velocity : FVector
  /-- Result of `GetActorLocation()`. -/
  ActorLocation : FVector
  /-- Result of `GetActorRotation()`. -/
  ActorRotation : FRotator
  deriving DecidableEq

/-- What the component reads of a holder (`USceneComponent`). -/
structure USceneComponent where
  /-- Identity of the scene component (its address). -/
  Id : Nat
  /-- Result of `GetOwner()`, possibly null. -/
  Owner : Option AActor
  /-- Result of `GetComponentLocation()`. -/
  ComponentLocation : FVector
  /-- Result of `GetForwardVector()`. -/
  ForwardVector : FVector
  /-- Result of `GetComponentRotation()`. -/
  ComponentRotation : FRotator
  deriving DecidableEq

/-- What the component reads of a controller (`AController`). -/
structure AController where
  /-- Result of `GetControlRotation()`. -/
  ControlRotation : FRotator
  deriving DecidableEq

/-- Result of a sweep or the hit passed to a collision callback (`FHitResult`). -/
structure FHitResult where
  Location : FVector
  ImpactNormal : FVector
  ImpactPoint : FVector
  /-- The physical material of the touched surface, possibly null. -/
  PhysMaterial : Option Nat
  deriving DecidableEq

/-- Bone name (`FName`); `none` is `NAME_None`. -/
abbrev FName := Option Nat

/-- Delegates the component binds itself to in `Physicalize`. -/
inductive EDelegate where
  | OnComponentSleep
  | OnComponentWake
  | OnComponentHit
  | OnTakeAnyDamage
  | OnTakePointDamage
  | OnTakeRadialDamage
  deriving DecidableEq

/-- A call the component issues on an engine object. -/
inductive ECall where
  -- calls on the managed mesh
  | SetSimulatePhysics (b : Bool)
  | SetNotifyRigidBodyCollision (b : Bool)
  | SetGenerateOverlapEvents (b : Bool)
  | SetSleepFamilySensitive
  | SetLinearDamping (d : ℚ)
  | SetAngularDamping (d : ℚ)
  | SetUseCCD (b : Bool)
  | IgnoreActorWhenMoving (actor : Nat) (bShouldIgnore : Bool)
  | SetPhysicsLinearVelocity (v : FVector)
  | WakeAllRigidBodies
  | PutAllRigidBodiesToSleep
  | SetComponentTickInterval (t : ℚ)
  | AddImpulse (Impulse : FVector) (BoneName : FName) (bVelChange : Bool)
  | AddImpulseAtLocation (Impulse : FVector) (Location : FVector) (BoneName : FName)
  | AddRadialImpulse (Origin : FVector) (Radius : ℚ) (Strength : ℚ) (bLinearFalloff : Bool)
      (bVelChange : Bool)
  | AddDynamic (d : EDelegate)
  -- calls on the owning actor
  | SetActorTickEnabled (b : Bool)
  | SetActorLocationAndRotation (NewLoc : FVector) (NewRot : FRotator) (bSweep : Bool)
  | Destroy
  | SetReplicateMovement (b : Bool)
  -- calls on the pawn that owns the holder
  | MoveIgnoreActorAdd (pawn : Nat) (actor : Nat)
  | MoveIgnoreActorRemove (pawn : Nat) (actor : Nat)
  -- calls on the component itself
  | SetComponentTickEnabled (b : Bool)
  -- calls on the world
  | SetTimer (Rate : ℚ) (bLoop : Bool)
  | PlaySoundAtLocation (Sound : Nat) (Location : FVector) (Volume : ℚ) (Pitch : ℚ)
  deriving DecidableEq

/-- The managed rigid body (`UStaticMeshComponent`): the flags the calls of the component
write and the values the component reads from it. -/
structure UStaticMeshComponent where
  /-- Identity of the mesh (its address). -/
  Id : Nat
  /-- Result of `IsSimulatingPhysics()`. -/
  bSimulatePhysics : Bool
  /-- Result of `GetBodyInstance()->IsInstanceAwake()`. -/
  bAwake : Bool
  /-- The field `BodyInstance.bUseCCD`. -/
  bUseCCD : Bool
  /-- The tick interval of the mesh, set by `SetComponentTickInterval`. -/
  TickInterval : ℚ
  /-- Actors ignored when the mesh moves, written by `IgnoreActorWhenMoving`. -/
  MoveIgnoreActors : List Nat
  bNotifyRigidBodyCollision : Bool
  bGenerateOverlapEvents : Bool
  /-- Whether `BodyInstance.SleepFamily` is `ESleepFamily::Sensitive`. -/
  bSleepFamilySensitive : Bool
  LinearDamping : ℚ
  AngularDamping : ℚ
  /-- Result of `GetComponentVelocity()`. -/
  ComponentVelocity : FVector
  /-- Result of `GetComponentLocation()`. -/
  ComponentLocation : FVector
  /-- Result of `GetMass()`. -/
  Mass : ℚ
  deriving DecidableEq

/-- Effect of a call on the flags of the body. Calls that only feed the solver (velocity,
impulses) and calls on other objects leave the record as it is. -/
def UStaticMeshComponent.apply (c : ECall) (m : UStaticMeshComponent) : UStaticMeshComponent :=
  match c with
  | .SetSimulatePhysics b => { m with bSimulatePhysics := b }
  | .SetNotifyRigidBodyCollision b => { m with bNotifyRigidBodyCollision := b }
  | .SetGenerateOverlapEvents b => { m with bGenerateOverlapEvents := b }
  | .SetSleepFamilySensitive => { m with bSleepFamilySensitive := true }
  | .SetLinearDamping d => { m with LinearDamping := d }
  | .SetAngularDamping d => { m with AngularDamping := d }
  | .SetUseCCD b => { m with bUseCCD := b }
  | .IgnoreActorWhenMoving a true =>
      { m with MoveIgnoreActors := if a ∈ m.MoveIgnoreActors then m.MoveIgnoreActors
                                   else m.MoveIgnoreActors ++ [a] }
  | .IgnoreActorWhenMoving a false => { m with MoveIgnoreActors := m.MoveIgnoreActors.erase a }
  | .WakeAllRigidBodies => { m with bAwake := true }
  | .PutAllRigidBodiesToSleep => { m with bAwake := false }
  | .SetComponentTickInterval t => { m with TickInterval := t }
  | _ => m

/-! ## Data of the repository -/

/-- Damage type passed to the damage callbacks: what the two casts of the handlers see.
`PhysicsProp` is `UPhysicsPropDamageType` (PhysicsPropDamageType.h), `Generic` is
`UGenericDamageType` with its `ImpulseModifier`, `Other` is any other class or null. -/
inductive UDamageType where
  | Other
  | PhysicsProp (ImpulsePower : ℚ) (bForceWake : Bool)
  | Generic (ImpulseModifier : ℚ)
  deriving DecidableEq

/-- Sound entry of the impact table (`FImpactSoundEntry`). -/
structure FImpactSoundEntry where
  /-- The sound asset, possibly null. -/
  ImpactSound : Option Nat
  VolumeMultiplier : ℚ
  deriving DecidableEq

/-- The impact table (`UPropPhysicsImpactData`). -/
structure UPropPhysicsImpactData where
  /-- Entries by physical material (`TMap`; the key may be the null material). -/
  ImpactMap : List (Option Nat × FImpactSoundEntry)
  DefaultSound : FImpactSoundEntry
  deriving DecidableEq

/-- Lookup `ImpactMap.Find (key)`. -/
def UPropPhysicsImpactData.Find (t : UPropPhysicsImpactData) (key : Option Nat) :
    Option FImpactSoundEntry :=
  (t.ImpactMap.find? (fun p => p.1 == key)).map (fun p => p.2)

/-- What the component reads of the world (`UWorld`). -/
structure UWorld where
  /-- Result of `GetTimeSeconds()`. -/
  TimeSeconds : ℚ
  /-- Result of `GetDeltaSeconds()`. -/
  DeltaSeconds : ℚ
  /-- View point of the first player controller; `none` when there is no controller. -/
  FirstPlayerViewPoint : Option FVector
  /-- Sweep `SweepSingleByChannel (Start, End, sphere radius, ignored actors)`. -/
  SweepSingleByChannel : FVector → FVector → ℚ → List (Option Nat) → Option FHitResult

/-- The component (`UPhysicsPropComponent`): its configuration, its private fields, the
objects it points to and the log of the calls it has issued. -/
structure UPhysicsPropComponent where
  PhysicsCullDistance : ℚ
  DistanceCheckInterval : ℚ
  CCDSpeedThreshold : ℚ
  ImpactTable : Option UPropPhysicsImpactData
  MinImpactThreshold : ℚ
  ImpactCooldown : ℚ
  /-- Rate of the looping distance timer once `Physicalize` has set it. -/
  TimerHandle_DistanceCheck : Option ℚ
  ManagedMesh : Option UStaticMeshComponent
  LastImpactTime : ℚ
  bIsGrabbed : Bool
  CurrentHolder : Option USceneComponent
  HoldDistance : ℚ
  /-- Result of `GetOwner()`. -/
  Owner : AActor
  /-- Calls issued so far, oldest first. -/
  Log : List ECall

namespace UPhysicsPropComponent

/-- A component as the constructor and the member initialisers leave it. -/
def fresh (Owner : AActor) (ImpactTable : Option UPropPhysicsImpactData) :
    UPhysicsPropComponent :=
  { PhysicsCullDistance := 3000
    DistanceCheckInterval := 1
    CCDSpeedThreshold := 500
    ImpactTable := ImpactTable
    MinImpactThreshold := 10000
    ImpactCooldown := 1 / 10
    TimerHandle_DistanceCheck := none
    ManagedMesh := none
    LastImpactTime := 0
    bIsGrabbed := false
    CurrentHolder := none
    HoldDistance := 0
    Owner := Owner
    Log := [] }

/-- Issue a call: it is logged, and applied to the managed mesh. -/
def call (c : ECall) (s : UPhysicsPropComponent) : UPhysicsPropComponent :=
  { s with ManagedMesh := s.ManagedMesh.map (UStaticMeshComponent.apply c), Log := s.Log ++ [c] }

/-! ## Operations -/

/-- The method `UPhysicsPropComponent::Physicalize`; `RandomVariability` is the value
drawn by `FMath::RandRange (0.0f, 0.5f)`. -/
def Physicalize (TargetMesh : Option UStaticMeshComponent) (RandomVariability : ℚ)
    (s : UPhysicsPropComponent) : UPhysicsPropComponent :=
  match TargetMesh with
  | none => s
  | some m =>
    let s := { s with ManagedMesh := some m }
    let s := s.call (.SetSimulatePhysics true)
    let s := s.call (.SetNotifyRigidBodyCollision true)
    let s := s.call (.SetGenerateOverlapEvents false)
    let s := s.call (.SetActorTickEnabled false)
    let s := s.call (.AddDynamic .OnComponentSleep)
    let s := s.call (.AddDynamic .OnComponentWake)
    let s := s.call (.AddDynamic .OnComponentHit)
    let s := s.call .SetSleepFamilySensitive
    let s := s.call (.SetLinearDamping (1 / 2))
    let s := s.call (.SetAngularDamping (1 / 2))
    let s :=
      if s.PhysicsCullDistance > (0 : ℚ) then
        { s.call (.SetTimer (s.DistanceCheckInterval + RandomVariability) true) with
          TimerHandle_DistanceCheck := some (s.DistanceCheckInterval + RandomVariability) }
      else s
    let s := s.call (.AddDynamic .OnTakeAnyDamage)
    let s := s.call (.AddDynamic .OnTakePointDamage)
    s.call (.AddDynamic .OnTakeRadialDamage)

/-- The method `UPhysicsPropComponent::Grab`. -/
def Grab (E : FEngine) (Holder : Option USceneComponent) (s : UPhysicsPropComponent) :
    UPhysicsPropComponent :=
  match Holder, s.ManagedMesh with
  | some h, some m =>
    let s := { s with CurrentHolder := some h, bIsGrabbed := true }
    let s := s.call (.SetSimulatePhysics false)
    let s :=
      match h.Owner with
      | some OwnerActor =>
        let s := s.call (.IgnoreActorWhenMoving OwnerActor.Id true)
        if OwnerActor.IsPawn then s.call (.MoveIgnoreActorAdd OwnerActor.Id s.Owner.Id) else s
      | none => s
    let s := { s with HoldDistance := E.Distance h.ComponentLocation m.ComponentLocation }
    let s := { s with HoldDistance := FMath.Clamp s.HoldDistance 50 250 }
    s.call (.SetComponentTickEnabled true)
  | _, _ => s

/-- The method `UPhysicsPropComponent::Drop`. -/
def Drop (s : UPhysicsPropComponent) : UPhysicsPropComponent :=
  if !s.bIsGrabbed || s.ManagedMesh.isNone then s else
  let s := s.call (.SetSimulatePhysics true)
  let s :=
    match s.CurrentHolder with
    | some h =>
      match h.Owner with
      | some HolderOwner =>
        let s := s.call (.SetPhysicsLinearVelocity HolderOwner.Velocity)
        let s := s.call (.IgnoreActorWhenMoving HolderOwner.Id false)
        if HolderOwner.IsPawn then s.call (.MoveIgnoreActorRemove HolderOwner.Id s.Owner.Id)
        else s
      | none => s
    | none => s
  let s := s.call .WakeAllRigidBodies
  { s with bIsGrabbed := false, CurrentHolder := none }

/-- The method `UPhysicsPropComponent::Throw`. -/
def Throw (E : FEngine) (Direction : FVector) (Force : ℚ) (s : UPhysicsPropComponent) :
    UPhysicsPropComponent :=
  if !s.bIsGrabbed || s.ManagedMesh.isNone then s else
  let s := Drop s
  s.call (.AddImpulse ((E.GetSafeNormal Direction).scale Force) none true)

/-- The method `UPhysicsPropComponent::UpdateGrabbedPosition`. -/
def UpdateGrabbedPosition (E : FEngine) (World : UWorld) (s : UPhysicsPropComponent) :
    UPhysicsPropComponent :=
  match s.CurrentHolder, s.ManagedMesh with
  | some h, some _ =>
    let TargetLocation := h.ComponentLocation.add (h.ForwardVector.scale s.HoldDistance)
    let TargetRotation := h.ComponentRotation
    let IgnoredActors := [some s.Owner.Id, h.Owner.map (fun a => a.Id)]
    let StartTrace := h.ComponentLocation
    let TargetLocation :=
      match World.SweepSingleByChannel StartTrace TargetLocation 10 IgnoredActors with
      | some Hit => Hit.Location.add (Hit.ImpactNormal.scale 12)
      | none => TargetLocation
    let NewLoc := E.VInterpTo s.Owner.ActorLocation TargetLocation World.DeltaSeconds 20
    let NewRot := E.RInterpTo s.Owner.ActorRotation TargetRotation World.DeltaSeconds 20
    s.call (.SetActorLocationAndRotation NewLoc NewRot true)
  | _, _ => s

/-- The method `UPhysicsPropComponent::TickComponent`. -/
def TickComponent (E : FEngine) (World : UWorld) (s : UPhysicsPropComponent) :
    UPhysicsPropComponent :=
  match s.ManagedMesh with
  | none => s
  | some m =>
    if s.CCDSpeedThreshold ≤ (0 : ℚ) then s else
    let SpeedSq := m.ComponentVelocity.SizeSquared
    let bShouldUseCCD : Bool := decide (SpeedSq > s.CCDSpeedThreshold * s.CCDSpeedThreshold)
    let s := if m.bUseCCD != bShouldUseCCD then s.call (.SetUseCCD bShouldUseCCD) else s
    if s.bIsGrabbed && s.CurrentHolder.isSome then UpdateGrabbedPosition E World s else s

/-- The method `UPhysicsPropComponent::CheckDistanceToPlayer`; `World` is the result of
`GetWorld()`. -/
def CheckDistanceToPlayer (World : Option UWorld) (s : UPhysicsPropComponent) :
    UPhysicsPropComponent :=
  match s.ManagedMesh, World with
  | some m, some W =>
    if s.Owner.ActorLocation.Z < (-20000 : ℚ) then s.call .Destroy else
    match W.FirstPlayerViewPoint with
    | none => s
    | some ObserverLoc =>
      let DistSq := FVector.DistSquared ObserverLoc s.Owner.ActorLocation
      let CullDistSq := s.PhysicsCullDistance * s.PhysicsCullDistance
      if DistSq > CullDistSq then
        let s := if m.bSimulatePhysics && m.bAwake then s.call .PutAllRigidBodiesToSleep else s
        s.call (.SetComponentTickInterval 1)
      else
        s.call (.SetComponentTickInterval 0)
  | _, _ => s

/-- The method `UPhysicsPropComponent::OnPhysicsComponentSleep`; `bAuthority` is whether
`GetOwnerRole()` is `ROLE_Authority`. -/
def OnPhysicsComponentSleep (bAuthority : Bool) (s : UPhysicsPropComponent) :
    UPhysicsPropComponent :=
  let s := s.call (.SetComponentTickEnabled false)
  let s := s.call (.SetActorTickEnabled false)
  if bAuthority then s.call (.SetReplicateMovement false) else s

/-- The method `UPhysicsPropComponent::OnPhysicsComponentWake`. -/
def OnPhysicsComponentWake (bAuthority : Bool) (s : UPhysicsPropComponent) :
    UPhysicsPropComponent :=
  let s := s.call (.SetComponentTickEnabled true)
  let s := s.call (.SetActorTickEnabled true)
  if bAuthority then s.call (.SetReplicateMovement true) else s

/-- The method `UPhysicsPropComponent::OnTakeAnyDamage`. -/
def OnTakeAnyDamage (E : FEngine) (Damage : ℚ) (DamageType : UDamageType)
    (InstigatedBy : Option AController) (DamageCauser : Option AActor)
    (s : UPhysicsPropComponent) : UPhysicsPropComponent :=
  match s.ManagedMesh with
  | none => s
  | some m =>
    if !m.bSimulatePhysics then s else
    let s := s.call (.SetComponentTickInterval 0)
    let ForceMultiplier : ℚ := 500
    let bShouldWake := true
    let (bShouldWake, ForceMultiplier) :=
      match DamageType with
      | .PhysicsProp ImpulsePower bForceWake => (bForceWake, ImpulsePower)
      | .Generic ImpulseModifier => (bShouldWake, 500 * ImpulseModifier)
      | .Other => (bShouldWake, ForceMultiplier)
    let s := if bShouldWake then s.call .WakeAllRigidBodies else s
    let ImpulseDir :=
      match InstigatedBy, DamageCauser with
      | some Instigator, _ => E.RotatorVector Instigator.ControlRotation
      | none, some Causer => E.GetSafeNormal (m.ComponentLocation.sub Causer.ActorLocation)
      | none, none => FVector.UpVector
    let Impulse := ImpulseDir.scale (Damage * ForceMultiplier)
    s.call (.AddImpulse Impulse none true)

/-- The method `UPhysicsPropComponent::OnTakePointDamage`. -/
def OnTakePointDamage (Damage : ℚ) (HitLocation : FVector) (BoneName : FName)
    (ShotFromDirection : FVector) (DamageType : UDamageType)
    (s : UPhysicsPropComponent) : UPhysicsPropComponent :=
  match s.ManagedMesh with
  | none => s
  | some m =>
    if !m.bSimulatePhysics then s else
    let ForceMultiplier : ℚ := 500
    let bShouldWake := true
    let (bShouldWake, ForceMultiplier) :=
      match DamageType with
      | .PhysicsProp ImpulsePower bForceWake => (bForceWake, ImpulsePower)
      | .Generic ImpulseModifier => (bShouldWake, 500 * ImpulseModifier)
      | .Other => (bShouldWake, ForceMultiplier)
    let s := if bShouldWake then s.call .WakeAllRigidBodies else s
    let Impulse := ShotFromDirection.scale (Damage * ForceMultiplier)
    s.call (.AddImpulseAtLocation Impulse HitLocation BoneName)

/-- The method `UPhysicsPropComponent::OnTakeRadialDamage`. -/
def OnTakeRadialDamage (Damage : ℚ) (DamageType : UDamageType) (Origin : FVector)
    (s : UPhysicsPropComponent) : UPhysicsPropComponent :=
  match s.ManagedMesh with
  | none => s
  | some m =>
    if !m.bSimulatePhysics then s else
    let ForceMultiplier : ℚ := 2000
    let bShouldWake := true
    let (bShouldWake, ForceMultiplier) :=
      match DamageType with
      | .PhysicsProp ImpulsePower bForceWake => (bForceWake, ImpulsePower * 4)
      | .Generic ImpulseModifier => (bShouldWake, 2000 * ImpulseModifier)
      | .Other => (bShouldWake, ForceMultiplier)
    let s := if bShouldWake then s.call .WakeAllRigidBodies else s
    let ImpulseStrength := Damage * ForceMultiplier
    s.call (.AddRadialImpulse Origin 500 ImpulseStrength true true)

/-- The method `UPhysicsPropComponent::OnComponentHit`; `Pitch` is the value drawn by
`FMath::RandRange (0.85f, 1.1f)`. -/
def OnComponentHit (E : FEngine) (World : Option UWorld) (NormalImpulse : FVector)
    (Hit : FHitResult) (Pitch : ℚ) (s : UPhysicsPropComponent) : UPhysicsPropComponent :=
  match s.ImpactTable, World with
  | some Table, some W =>
    let CurrentTime := W.TimeSeconds
    if CurrentTime - s.LastImpactTime < s.ImpactCooldown then s else
    let ImpactIntensity := E.Size NormalImpulse
    let ImpactIntensity :=
      match s.ManagedMesh with
      | some m => if m.Mass > (0 : ℚ) then ImpactIntensity / m.Mass else ImpactIntensity
      | none => ImpactIntensity
    if ImpactIntensity < s.MinImpactThreshold then s else
    let HitPhysMat := Hit.PhysMaterial
    let SoundEntry :=
      match Table.Find HitPhysMat with
      | some e => e
      | none => Table.DefaultSound
    match SoundEntry.ImpactSound with
    | some Sound =>
      let Volume :=
        FMath.GetMappedRangeValueClamped s.MinImpactThreshold (s.MinImpactThreshold * 5)
          (1 / 5) 1 ImpactIntensity * SoundEntry.VolumeMultiplier
      let s := s.call (.PlaySoundAtLocation Sound Hit.ImpactPoint Volume Pitch)
      { s with LastImpactTime := CurrentTime }
    | none => s
  | _, _ => s

end UPhysicsPropComponent

/-! ## Runs of operations -/

/-- The public operations and the tick, with their arguments. -/
inductive EOp where
  | Physicalize (TargetMesh : Option UStaticMeshComponent) (RandomVariability : ℚ)
  | Grab (Holder : Option USceneComponent)
  | Drop
  | Throw (Direction : FVector) (Force : ℚ)
  | Tick (World : UWorld)

/-- One operation applied to the component. -/
def EOp.step (E : FEngine) (o : EOp) (s : UPhysicsPropComponent) : UPhysicsPropComponent :=
  match o with
  | .Physicalize TargetMesh RandomVariability => s.Physicalize TargetMesh RandomVariability
  | .Grab Holder => s.Grab E Holder
  | .Drop => s.Drop
  | .Throw Direction Force => s.Throw E Direction Force
  | .Tick World => s.TickComponent E World

/-- A finite sequence of operations applied from left to right. -/
def runOps (E : FEngine) (ops : List EOp) (s : UPhysicsPropComponent) : UPhysicsPropComponent :=
  ops.foldl (fun s o => o.step E s) s

/-- State of a component before any operation: no body, not held, no holder; the
configuration fields are arbitrary. -/
def IsInitial (s : UPhysicsPropComponent) : Prop :=
  s.ManagedMesh = none ∧ s.bIsGrabbed = false ∧ s.CurrentHolder = none ∧ s.HoldDistance = 0 ∧
    s.LastImpactTime = 0

/-- Invariant of the grab state carried along every run. -/
def GrabInv (s : UPhysicsPropComponent) : Prop :=
  s.CurrentHolder.isSome = s.bIsGrabbed ∧
  (s.bIsGrabbed = true → s.ManagedMesh.isSome = true ∧ 50 ≤ s.HoldDistance ∧ s.HoldDistance ≤ 250) ∧
  (s.bIsGrabbed = false → ∀ m, s.ManagedMesh = some m → m.bSimulatePhysics = true)

/-- One tick of the component after the solver has given the body the velocity `v`. -/
def tickAtVelocity (E : FEngine) (W : UWorld) (v : FVector) (s : UPhysicsPropComponent) :
    UPhysicsPropComponent :=
  UPhysicsPropComponent.TickComponent E W
    { s with ManagedMesh := s.ManagedMesh.map (fun m => { m with ComponentVelocity := v }) }

/-- A sequence of ticks, each with the velocity of the body and the world it sees. -/
def runTicks (E : FEngine) (ticks : List (FVector × UWorld)) (s : UPhysicsPropComponent) :
    UPhysicsPropComponent :=
  ticks.foldl (fun s t => tickAtVelocity E t.2 t.1 s) s

/-- Whether a call belongs to the culling of the proximity scheduler: the force-sleep, the
tick interval set to the coarse rate 1.0, or the start of the distance timer. -/
def ECall.isCull : ECall → Bool
  | .PutAllRigidBodiesToSleep => true
  | .SetComponentTickInterval t => decide (t = 1)
  | .SetTimer _ _ => true
  | _ => false

/-- An event of a run: an operation on the component, or the timer manager firing the
distance timer, which invokes `CheckDistanceToPlayer` when `Physicalize` has set the timer
and does nothing otherwise. -/
inductive EEvent where
  | Op (o : EOp)
  | TimerFire (World : Option UWorld)

/-- One event applied to the component. -/
def EEvent.step (E : FEngine) (e : EEvent) (s : UPhysicsPropComponent) : UPhysicsPropComponent :=
  match e with
  | .Op o => o.step E s
  | .TimerFire World =>
    match s.TimerHandle_DistanceCheck with
    | some _ => s.CheckDistanceToPlayer World
    | none => s

/-- A finite sequence of events applied from left to right. -/
def runEvents (E : FEngine) (events : List EEvent) (s : UPhysicsPropComponent) :
    UPhysicsPropComponent :=
  events.foldl (fun s e => e.step E s) s

/-! ## Definitions in the words of the specification -/

/-- The desired CCD state of a tick: the squared speed is strictly above the squared
threshold. -/
def wantsCCD (threshold : ℚ) (v : FVector) : Bool :=
  decide (v.SizeSquared > threshold * threshold)

/-- Whether a call is the CCD enable/disable call. -/
def ECall.isSetUseCCD : ECall → Bool
  | .SetUseCCD _ => true
  | _ => false

/-- The CCD calls a sequence of desired states asks for when calls are issued on change only:
one call at each position whose desired state differs from the one before it (from the
applied flag, at the first position). -/
def ccdFlips (flag : Bool) : List Bool → List ECall
  | [] => []
  | d :: ds => (if d != flag then [ECall.SetUseCCD d] else []) ++ ccdFlips d ds

/-- The three shapes of damage event. -/
inductive EDamageShape where
  | Any
  | Point
  | Radial
  deriving DecidableEq

/-- Base multiplier of a shape in the words of the specification: 500 for any and point
events, 2000 for radial events. -/
def baseMultiplier : EDamageShape → ℚ
  | .Radial => 2000
  | _ => 500

/-- The resolution rule of the specification for the damage-type modifier, as
(multiplier, wake): no modifier gives (base, true); explicit-impulse (power, forceWake)
gives (power, forceWake), with power × 4 for radial events; scaled-impulse (k) gives
(base × k, true). -/
def resolveModifier (shape : EDamageShape) : UDamageType → ℚ × Bool
  | .Other => (baseMultiplier shape, true)
  | .PhysicsProp power forceWake =>
      (match shape with
        | .Radial => power * 4
        | _ => power, forceWake)
  | .Generic k => (baseMultiplier shape * k, true)

/-- Direction of an any-damage impulse in the words of the specification: the aim of the
instigator if there is one, else the normalised vector from the causer to the body, else the
up vector. -/
def anyDamageDirection (E : FEngine) (m : UStaticMeshComponent)
    (InstigatedBy : Option AController) (DamageCauser : Option AActor) : FVector :=
  match InstigatedBy with
  | some Instigator => E.RotatorVector Instigator.ControlRotation
  | none =>
    match DamageCauser with
    | some Causer => E.GetSafeNormal (m.ComponentLocation.sub Causer.ActorLocation)
    | none => FVector.UpVector

/-- The force-wake call when `wake` holds, nothing otherwise. -/
def wakeCalls (wake : Bool) : List ECall := if wake then [ECall.WakeAllRigidBodies] else []

/-- Impact intensity in the words of the specification: the magnitude of the collision
impulse, divided by the mass of the body when there is a body of mass > 0. -/
def impactIntensity (E : FEngine) (NormalImpulse : FVector)
    (body : Option UStaticMeshComponent) : ℚ :=
  match body with
  | some b => if b.Mass > 0 then E.Size NormalImpulse / b.Mass else E.Size NormalImpulse
  | none => E.Size NormalImpulse

/-- The sound entry a hit resolves to: the entry of the touched material, else the default
entry of the table. -/
def resolvedEntry (Table : UPropPhysicsImpactData) (Hit : FHitResult) : FImpactSoundEntry :=
  (Table.Find Hit.PhysMaterial).getD Table.DefaultSound

/-- Volume in the words of the specification: multiplier × (0.2 + 0.8 × (intensity −
threshold) / (4 × threshold)), clamped to [0.2 × multiplier, 1.0 × multiplier]. -/
def impactVolume (T I mult : ℚ) : ℚ :=
  max (mult * (1 / 5)) (min (mult * 1) (mult * (1 / 5 + 4 / 5 * ((I - T) / (4 * T)))))

/-! ## Concrete objects used to instantiate the theorems -/

/-- An engine whose square root is exact on squares of rationals and rounds down elsewhere. -/
def gridEngine : FEngine where
  Sqrt q := (Nat.sqrt (q.num.toNat * q.den) : ℚ) / q.den
  GetSafeNormal v :=
    let n : ℚ := (Nat.sqrt (v.SizeSquared.num.toNat * v.SizeSquared.den) : ℚ) / v.SizeSquared.den
    if n = 0 then FVector.ZeroVector else v.scale (1 / n)
  RotatorVector _ := ⟨1, 0, 0⟩
  VInterpTo Current Target DeltaTime InterpSpeed :=
    Current.add ((Target.sub Current).scale (FMath.Clamp (DeltaTime * InterpSpeed) 0 1))
  RInterpTo _ Target _ _ := Target

/-- A pawn standing at the origin. -/
def samplePawn : AActor :=
  { Id := 7, IsPawn := true, Velocity := ⟨100, 0, 0⟩, ActorLocation := ⟨0, 0, 0⟩,
    ActorRotation := ⟨0, 0, 0⟩ }

/-- The actor that owns the prop component. -/
def sampleOwner : AActor :=
  { Id := 1, IsPawn := false, Velocity := ⟨0, 0, 0⟩, ActorLocation := ⟨150, 0, 0⟩,
    ActorRotation := ⟨0, 0, 0⟩ }

/-- A holder attached to `samplePawn`. -/
def sampleHolder : USceneComponent :=
  { Id := 3, Owner := some samplePawn, ComponentLocation := ⟨0, 0, 0⟩,
    ForwardVector := ⟨1, 0, 0⟩, ComponentRotation := ⟨0, 0, 0⟩ }

/-- A holder at a chosen position on the x axis, attached to `samplePawn`. -/
def holderAt (x : ℚ) : USceneComponent := { sampleHolder with ComponentLocation := ⟨x, 0, 0⟩ }

/-- A simulating, awake body of mass 2 at 150 units from the origin. -/
def sampleMesh : UStaticMeshComponent :=
  { Id := 2, bSimulatePhysics := true, bAwake := true, bUseCCD := false, TickInterval := 0,
    MoveIgnoreActors := [], bNotifyRigidBodyCollision := true, bGenerateOverlapEvents := false,
    bSleepFamilySensitive := true, LinearDamping := 1 / 2, AngularDamping := 1 / 2,
    ComponentVelocity := ⟨0, 0, 0⟩, ComponentLocation := ⟨150, 0, 0⟩, Mass := 2 }

/-- A prop with default configuration that manages `sampleMesh` and is not held. -/
def idleProp : UPhysicsPropComponent :=
  { UPhysicsPropComponent.fresh sampleOwner none with ManagedMesh := some sampleMesh }

/-- The prop `idleProp` held by `sampleHolder` at hold distance 150. -/
def heldProp : UPhysicsPropComponent :=
  { idleProp with
    ManagedMesh := some { sampleMesh with bSimulatePhysics := false, MoveIgnoreActors := [7] }
    bIsGrabbed := true, CurrentHolder := some sampleHolder, HoldDistance := 150 }

/-- A sample prop whose body is simulating but asleep. -/
def asleepProp : UPhysicsPropComponent :=
  { idleProp with ManagedMesh := some { sampleMesh with bAwake := false } }

/-- A world with no player controller in which sweeps hit nothing. -/
def sampleWorld : UWorld :=
  { TimeSeconds := 2, DeltaSeconds := 1 / 60, FirstPlayerViewPoint := none,
    SweepSingleByChannel := fun _ _ _ _ => none }

/-- A world whose first player views the scene from the point `P`. -/
def worldViewedFrom (P : FVector) : UWorld := { sampleWorld with FirstPlayerViewPoint := some P }

/-- The sample world at a chosen time. -/
def worldAt (t : ℚ) : UWorld := { sampleWorld with TimeSeconds := t }

/-- An impact table with one entry for material 4 and a default entry, both with a sound. -/
def sampleTable : UPropPhysicsImpactData :=
  { ImpactMap := [(some 4, { ImpactSound := some 11, VolumeMultiplier := 2 })]
    DefaultSound := { ImpactSound := some 10, VolumeMultiplier := 1 } }

/-- The idle sample prop with `sampleTable`; no impact has been accepted yet. -/
def audioProp : UPhysicsPropComponent := { idleProp with ImpactTable := some sampleTable }

/-- A hit on a surface without physical material, at the origin. -/
def sampleHit : FHitResult :=
  { Location := ⟨0, 0, 0⟩, ImpactNormal := ⟨0, 0, 1⟩, ImpactPoint := ⟨0, 0, 0⟩,
    PhysMaterial := none }

/-- The held sample prop with its holder moved to x = 30, so that the hold point
(holder position + forward × 150) is 30 units ahead of the prop. -/
def carriedProp : UPhysicsPropComponent := { heldProp with CurrentHolder := some (holderAt 30) }

/-- A fresh prop with the default cull distance 3000 after `Physicalize` on the sample body:
the distance timer is started. -/
def timedProp : UPhysicsPropComponent :=
  (UPhysicsPropComponent.fresh sampleOwner none).Physicalize (some sampleMesh) (1 / 4)

/-- The prop `timedProp` after its property `PhysicsCullDistance` (EditAnywhere,
BlueprintReadWrite) has been written to 0. -/
def timedPropCullZero : UPhysicsPropComponent := { timedProp with PhysicsCullDistance := 0 }

/-- A second pawn, with a holder attached to it 100 units from the sample body. -/
def otherPawn : AActor :=
  { Id := 8, IsPawn := true, Velocity := ⟨0, 50, 0⟩, ActorLocation := ⟨50, 0, 0⟩,
    ActorRotation := ⟨0, 0, 0⟩ }

/-- A holder attached to `otherPawn`. -/
def otherHolder : USceneComponent :=
  { Id := 5, Owner := some otherPawn, ComponentLocation := ⟨50, 0, 0⟩,
    ForwardVector := ⟨1, 0, 0⟩, ComponentRotation := ⟨0, 0, 0⟩ }

/-! ## Theorems -/

open UPhysicsPropComponent

theorem clamp_bounds (x lo hi : ℚ) (h : lo ≤ hi) :
    lo ≤ FMath.Clamp x lo hi ∧ FMath.Clamp x lo hi ≤ hi := by
  unfold FMath.Clamp
  split_ifs with h1 h2
  · exact ⟨le_refl _, h⟩
  · exact ⟨not_lt.mp h1, le_of_lt h2⟩
  · exact ⟨h, le_refl _⟩

theorem grabInv_initial (s : UPhysicsPropComponent) (h : IsInitial s) : GrabInv s := by
  obtain ⟨hm, hg, hh, _, _⟩ := h
  refine ⟨by simp [hh, hg], by simp [hg], by simp [hm]⟩

@[simp] theorem call_bIsGrabbed (c : ECall) (s : UPhysicsPropComponent) :
    (s.call c).bIsGrabbed = s.bIsGrabbed := rfl

@[simp] theorem call_CurrentHolder (c : ECall) (s : UPhysicsPropComponent) :
    (s.call c).CurrentHolder = s.CurrentHolder := rfl

@[simp] theorem call_HoldDistance (c : ECall) (s : UPhysicsPropComponent) :
    (s.call c).HoldDistance = s.HoldDistance := rfl

@[simp] theorem call_ManagedMesh (c : ECall) (s : UPhysicsPropComponent) :
    (s.call c).ManagedMesh = s.ManagedMesh.map (UStaticMeshComponent.apply c) := rfl

@[simp] theorem call_Log (c : ECall) (s : UPhysicsPropComponent) :
    (s.call c).Log = s.Log ++ [c] := rfl

@[simp] theorem call_Owner (c : ECall) (s : UPhysicsPropComponent) :
    (s.call c).Owner = s.Owner := rfl

@[simp] theorem call_PhysicsCullDistance (c : ECall) (s : UPhysicsPropComponent) :
    (s.call c).PhysicsCullDistance = s.PhysicsCullDistance := rfl

@[simp] theorem call_CCDSpeedThreshold (c : ECall) (s : UPhysicsPropComponent) :
    (s.call c).CCDSpeedThreshold = s.CCDSpeedThreshold := rfl

theorem Physicalize_grab (m : UStaticMeshComponent) (r : ℚ) (s : UPhysicsPropComponent) :
    (s.Physicalize (some m) r).bIsGrabbed = s.bIsGrabbed
    ∧ (s.Physicalize (some m) r).CurrentHolder = s.CurrentHolder
    ∧ (s.Physicalize (some m) r).HoldDistance = s.HoldDistance
    ∧ ∃ m', (s.Physicalize (some m) r).ManagedMesh = some m' ∧ m'.bSimulatePhysics = true := by
  by_cases hc : s.PhysicsCullDistance > 0
  · simp [Physicalize, hc, UStaticMeshComponent.apply]
  · simp [Physicalize, hc, UStaticMeshComponent.apply]

theorem grabInv_Physicalize (T : Option UStaticMeshComponent) (r : ℚ) (s : UPhysicsPropComponent)
    (h : GrabInv s) : GrabInv (s.Physicalize T r) := by
  obtain ⟨h1, h2, h3⟩ := h
  cases T with
  | none => exact ⟨h1, h2, h3⟩
  | some m =>
    obtain ⟨e1, e2, e3, m', e4, e5⟩ := Physicalize_grab m r s
    refine ⟨by rw [e1, e2]; exact h1, ?_, ?_⟩
    · intro hg
      rw [e1] at hg
      rw [e3, e4]
      exact ⟨rfl, (h2 hg).2⟩
    · intro _ m'' hm''
      rw [e4] at hm''
      cases hm''
      exact e5

theorem Grab_fields (E : FEngine) (h : USceneComponent) (m : UStaticMeshComponent)
    (s : UPhysicsPropComponent) (hm : s.ManagedMesh = some m) :
    (s.Grab E (some h)).bIsGrabbed = true
    ∧ (s.Grab E (some h)).CurrentHolder = some h
    ∧ (s.Grab E (some h)).HoldDistance
        = FMath.Clamp (E.Distance h.ComponentLocation m.ComponentLocation) 50 250
    ∧ ∃ m', (s.Grab E (some h)).ManagedMesh = some m' ∧ m'.bSimulatePhysics = false := by
  unfold Grab
  rw [hm]
  rcases ho : h.Owner with _ | a
  · simp [ho, hm, UStaticMeshComponent.apply]
  · by_cases hp : a.IsPawn = true
    · simp [ho, hm, hp, UStaticMeshComponent.apply]
    · simp [ho, hm, hp, UStaticMeshComponent.apply]

theorem Grab_noop (E : FEngine) (H : Option USceneComponent) (s : UPhysicsPropComponent)
    (h : H = none ∨ s.ManagedMesh = none) : s.Grab E H = s := by
  unfold Grab
  rcases h with h | h
  · subst h; rfl
  · rw [h]; cases H <;> rfl

theorem Drop_fields (m : UStaticMeshComponent) (s : UPhysicsPropComponent)
    (hg : s.bIsGrabbed = true) (hm : s.ManagedMesh = some m) :
    (s.Drop).bIsGrabbed = false
    ∧ (s.Drop).CurrentHolder = none
    ∧ (s.Drop).HoldDistance = s.HoldDistance
    ∧ ∃ m', (s.Drop).ManagedMesh = some m' ∧ m'.bSimulatePhysics = true := by
  unfold Drop
  rcases hh : s.CurrentHolder with _ | h
  · simp [hg, hm, hh, UStaticMeshComponent.apply]
  · rcases ho : h.Owner with _ | a
    · simp [hg, hm, hh, ho, UStaticMeshComponent.apply]
    · by_cases hp : a.IsPawn = true
      · simp [hg, hm, hh, ho, hp, UStaticMeshComponent.apply]
      · simp [hg, hm, hh, ho, hp, UStaticMeshComponent.apply]

theorem Drop_noop (s : UPhysicsPropComponent)
    (h : s.bIsGrabbed = false ∨ s.ManagedMesh = none) : s.Drop = s := by
  unfold Drop
  rcases h with h | h <;> simp [h]

theorem apply_SetActorLocationAndRotation (l : FVector) (r : FRotator) (b : Bool)
    (m : UStaticMeshComponent) :
    UStaticMeshComponent.apply (ECall.SetActorLocationAndRotation l r b) m = m := rfl

theorem UpdateGrabbedPosition_shape (E : FEngine) (W : UWorld) (s : UPhysicsPropComponent) :
    s.UpdateGrabbedPosition E W = s ∨
      ∃ l r, s.UpdateGrabbedPosition E W = s.call (ECall.SetActorLocationAndRotation l r true) := by
  unfold UpdateGrabbedPosition
  rcases s.CurrentHolder with _ | h
  · exact Or.inl rfl
  · rcases s.ManagedMesh with _ | m
    · exact Or.inl rfl
    · exact Or.inr ⟨_, _, rfl⟩

theorem UpdateGrabbedPosition_fields (E : FEngine) (W : UWorld) (s : UPhysicsPropComponent) :
    (s.UpdateGrabbedPosition E W).bIsGrabbed = s.bIsGrabbed
    ∧ (s.UpdateGrabbedPosition E W).CurrentHolder = s.CurrentHolder
    ∧ (s.UpdateGrabbedPosition E W).HoldDistance = s.HoldDistance
    ∧ (s.UpdateGrabbedPosition E W).ManagedMesh = s.ManagedMesh := by
  rcases UpdateGrabbedPosition_shape E W s with h | ⟨l, r, h⟩
  · rw [h]; exact ⟨rfl, rfl, rfl, rfl⟩
  · rw [h]
    refine ⟨rfl, rfl, rfl, ?_⟩
    rw [call_ManagedMesh]
    cases s.ManagedMesh <;> rfl

theorem Tick_fields (E : FEngine) (W : UWorld) (s : UPhysicsPropComponent) :
    (s.TickComponent E W).bIsGrabbed = s.bIsGrabbed
    ∧ (s.TickComponent E W).CurrentHolder = s.CurrentHolder
    ∧ (s.TickComponent E W).HoldDistance = s.HoldDistance
    ∧ (s.TickComponent E W).ManagedMesh.isSome = s.ManagedMesh.isSome
    ∧ ∀ m', (s.TickComponent E W).ManagedMesh = some m' →
        ∃ m, s.ManagedMesh = some m ∧ m'.bSimulatePhysics = m.bSimulatePhysics := by
  unfold TickComponent
  rcases hm : s.ManagedMesh with _ | m
  · simp [hm]
  · simp only []
    split_ifs with h1 h2 h3 h4
    · simp [hm]
    · obtain ⟨e1, e2, e3, e4⟩ := UpdateGrabbedPosition_fields E W
        (s.call (ECall.SetUseCCD (decide (m.ComponentVelocity.SizeSquared
          > s.CCDSpeedThreshold * s.CCDSpeedThreshold))))
      rw [e1, e2, e3, e4]
      simp [hm, UStaticMeshComponent.apply]
    · simp [hm, UStaticMeshComponent.apply]
    · obtain ⟨e1, e2, e3, e4⟩ := UpdateGrabbedPosition_fields E W s
      rw [e1, e2, e3, e4]
      simp [hm]
    · simp [hm]

theorem Throw_noop (E : FEngine) (d : FVector) (f : ℚ) (s : UPhysicsPropComponent)
    (h : s.bIsGrabbed = false ∨ s.ManagedMesh = none) : s.Throw E d f = s := by
  unfold Throw
  rcases h with h | h <;> simp [h]

theorem Throw_held (E : FEngine) (d : FVector) (f : ℚ) (m : UStaticMeshComponent)
    (s : UPhysicsPropComponent) (hg : s.bIsGrabbed = true) (hm : s.ManagedMesh = some m) :
    s.Throw E d f = (s.Drop).call (ECall.AddImpulse ((E.GetSafeNormal d).scale f) none true) := by
  unfold Throw
  simp [hg, hm]

theorem grabInv_Grab (E : FEngine) (H : Option USceneComponent) (s : UPhysicsPropComponent)
    (h : GrabInv s) : GrabInv (s.Grab E H) := by
  rcases H with _ | hd
  · rw [Grab_noop E none s (Or.inl rfl)]; exact h
  · rcases hm : s.ManagedMesh with _ | m
    · rw [Grab_noop E _ s (Or.inr hm)]; exact h
    · obtain ⟨e1, e2, e3, m', e4, _⟩ := Grab_fields E hd m s hm
      refine ⟨by rw [e1, e2]; rfl, fun _ => ?_, fun hg => ?_⟩
      · rw [e3, e4]
        exact ⟨rfl, clamp_bounds _ 50 250 (by norm_num)⟩
      · rw [e1] at hg; cases hg

theorem grabInv_Drop (s : UPhysicsPropComponent) (h : GrabInv s) : GrabInv s.Drop := by
  rcases hg : s.bIsGrabbed with _ | _
  · rw [Drop_noop s (Or.inl hg)]; exact h
  · obtain ⟨m, hm⟩ := Option.isSome_iff_exists.mp (h.2.1 hg).1
    obtain ⟨e1, e2, _, m', e4, e5⟩ := Drop_fields m s hg hm
    refine ⟨by rw [e1, e2]; rfl, fun hg' => ?_, fun _ m'' hm'' => ?_⟩
    · rw [e1] at hg'; cases hg'
    · rw [e4] at hm''; cases hm''; exact e5

theorem grabInv_Throw (E : FEngine) (d : FVector) (f : ℚ) (s : UPhysicsPropComponent)
    (h : GrabInv s) : GrabInv (s.Throw E d f) := by
  rcases hg : s.bIsGrabbed with _ | _
  · rw [Throw_noop E d f s (Or.inl hg)]; exact h
  · obtain ⟨m, hm⟩ := Option.isSome_iff_exists.mp (h.2.1 hg).1
    rw [Throw_held E d f m s hg hm]
    obtain ⟨h1, h2, h3⟩ := grabInv_Drop s h
    refine ⟨h1, fun hg' => ?_, fun hg' m'' hm'' => ?_⟩
    · have := h2 hg'
      refine ⟨?_, this.2⟩
      rw [call_ManagedMesh, Option.isSome_map']
      exact this.1
    · rw [call_ManagedMesh] at hm''
      rcases hd : (s.Drop).ManagedMesh with _ | md
      · rw [hd] at hm''; cases hm''
      · rw [hd] at hm''
        cases hm''
        exact h3 hg' md hd

theorem grabInv_Tick (E : FEngine) (W : UWorld) (s : UPhysicsPropComponent)
    (h : GrabInv s) : GrabInv (s.TickComponent E W) := by
  obtain ⟨e1, e2, e3, e4, e5⟩ := Tick_fields E W s
  obtain ⟨h1, h2, h3⟩ := h
  refine ⟨by rw [e1, e2]; exact h1, fun hg => ?_, fun hg m' hm' => ?_⟩
  · rw [e1] at hg
    rw [e3, e4]
    exact h2 hg
  · rw [e1] at hg
    obtain ⟨m, hm, hs⟩ := e5 m' hm'
    rw [hs]
    exact h3 hg m hm

theorem grabInv_step (E : FEngine) (o : EOp) (s : UPhysicsPropComponent) (h : GrabInv s) :
    GrabInv (o.step E s) := by
  cases o with
  | Physicalize T r => exact grabInv_Physicalize T r s h
  | Grab H => exact grabInv_Grab E H s h
  | Drop => exact grabInv_Drop s h
  | Throw d f => exact grabInv_Throw E d f s h
  | Tick W => exact grabInv_Tick E W s h

theorem grabInv_runOps (E : FEngine) (ops : List EOp) (s : UPhysicsPropComponent)
    (h : GrabInv s) : GrabInv (runOps E ops s) := by
  induction ops generalizing s with
  | nil => exact h
  | cons o rest ih => exact ih (o.step E s) (grabInv_step E o s h)

theorem Grab_isSome (E : FEngine) (H : Option USceneComponent) (s : UPhysicsPropComponent) :
    (s.Grab E H).ManagedMesh.isSome = s.ManagedMesh.isSome := by
  rcases H with _ | hd
  · rw [Grab_noop E none s (Or.inl rfl)]
  · rcases hm : s.ManagedMesh with _ | m
    · rw [Grab_noop E _ s (Or.inr hm), hm]
    · obtain ⟨_, _, _, m', e4, _⟩ := Grab_fields E hd m s hm
      rw [e4]; rfl

theorem Drop_isSome (s : UPhysicsPropComponent) :
    (s.Drop).ManagedMesh.isSome = s.ManagedMesh.isSome := by
  rcases hg : s.bIsGrabbed with _ | _
  · rw [Drop_noop s (Or.inl hg)]
  · rcases hm : s.ManagedMesh with _ | m
    · rw [Drop_noop s (Or.inr hm), hm]
    · obtain ⟨_, _, _, m', e4, _⟩ := Drop_fields m s hg hm
      rw [e4]; rfl

theorem gridEngine_Sqrt_sq (n : ℕ) : gridEngine.Sqrt ((n : ℚ) * n) = n := by
  have h : ((n : ℚ) * n) = ((n * n : ℕ) : ℚ) := by push_cast; rfl
  simp only [gridEngine]
  rw [h, Rat.num_natCast, Rat.den_natCast, Int.toNat_natCast, Nat.mul_one, Nat.sqrt_eq]
  simp

/-- C2. `Grab` with a non-null holder and a present body stores the holder-to-body distance
clamped into [50, 250]: 50 below 50, the distance itself from 50 to 250, 250 above; distances
10, 150 and 10000 give 50, 150 and 250. In every state reached from an initial state by
Physicalize, Grab, Drop, Throw and tick operations in which the prop is held, `HoldDistance`
lies in [50, 250]. -/
theorem grab_holdDistance_clamped (E : FEngine) (h : USceneComponent) (m : UStaticMeshComponent)
    (s : UPhysicsPropComponent) (hm : s.ManagedMesh = some m) :
    (s.Grab E (some h)).HoldDistance
        = (if E.Distance h.ComponentLocation m.ComponentLocation < 50 then 50
           else if E.Distance h.ComponentLocation m.ComponentLocation ≤ 250
             then E.Distance h.ComponentLocation m.ComponentLocation
           else 250)
    ∧ (E.Distance h.ComponentLocation m.ComponentLocation = 10 →
        (s.Grab E (some h)).HoldDistance = 50)
    ∧ (E.Distance h.ComponentLocation m.ComponentLocation = 150 →
        (s.Grab E (some h)).HoldDistance = 150)
    ∧ (E.Distance h.ComponentLocation m.ComponentLocation = 10000 →
        (s.Grab E (some h)).HoldDistance = 250)
    ∧ (∀ (s0 : UPhysicsPropComponent) (ops : List EOp), IsInitial s0 →
        (runOps E ops s0).bIsGrabbed = true →
          50 ≤ (runOps E ops s0).HoldDistance ∧ (runOps E ops s0).HoldDistance ≤ 250) := by
  obtain ⟨_, _, e3, _⟩ := Grab_fields E h m s hm
  rw [e3]
  refine ⟨?_, ?_, ?_, ?_, ?_⟩
  · unfold FMath.Clamp
    split_ifs with h1 h2 h3 h4 <;> first | rfl | linarith
  · intro hd; rw [hd]; norm_num [FMath.Clamp]
  · intro hd; rw [hd]; norm_num [FMath.Clamp]
  · intro hd; rw [hd]; norm_num [FMath.Clamp]
  · intro s0 ops h0 hg
    exact ((grabInv_runOps E ops s0 (grabInv_initial s0 h0)).2.1 hg).2

theorem gridEngine_Distance_axis (x : ℚ) (n : ℕ) (h : 150 - x = n) :
    gridEngine.Distance (holderAt x).ComponentLocation sampleMesh.ComponentLocation = n := by
  have : FVector.DistSquared (holderAt x).ComponentLocation sampleMesh.ComponentLocation
      = (n : ℚ) * n := by
    simp only [FVector.DistSquared, FVector.SizeSquared, FVector.sub, holderAt, sampleMesh]
    rw [← h]; ring
  unfold FEngine.Distance
  rw [this, gridEngine_Sqrt_sq]

/-- C2 witness: holders at 10, 150 and 10000 units from the sample body. -/
theorem grab_holdDistance_clamped_witness :
    (idleProp.Grab gridEngine (some (holderAt 140))).HoldDistance = 50
    ∧ (idleProp.Grab gridEngine (some (holderAt 0))).HoldDistance = 150
    ∧ (idleProp.Grab gridEngine (some (holderAt (-9850)))).HoldDistance = 250 :=
  ⟨(grab_holdDistance_clamped gridEngine (holderAt 140) sampleMesh idleProp rfl).2.1
      (by rw [gridEngine_Distance_axis 140 10 (by norm_num)]; norm_num),
   (grab_holdDistance_clamped gridEngine (holderAt 0) sampleMesh idleProp rfl).2.2.1
      (by rw [gridEngine_Distance_axis 0 150 (by norm_num)]; norm_num),
   (grab_holdDistance_clamped gridEngine (holderAt (-9850)) sampleMesh idleProp rfl).2.2.2.1
      (by rw [gridEngine_Distance_axis (-9850) 10000 (by norm_num)]; norm_num)⟩

/-- C3. In every state reached from an initial state by Physicalize, Grab, Drop, Throw and
tick operations with arbitrary arguments, the holder is set if and only if the prop is
grabbed; and `Grab` followed by `Drop` from such a state, whatever the holder argument,
leaves the prop not grabbed with no holder, keeps the body, and leaves the body simulating. -/
theorem holder_set_iff_grabbed (E : FEngine) (s0 : UPhysicsPropComponent) (ops : List EOp)
    (h0 : IsInitial s0) :
    ((runOps E ops s0).CurrentHolder.isSome = true ↔ (runOps E ops s0).bIsGrabbed = true)
    ∧ ∀ H : Option USceneComponent,
        ((runOps E ops s0).Grab E H).Drop.bIsGrabbed = false
        ∧ ((runOps E ops s0).Grab E H).Drop.CurrentHolder = none
        ∧ (((runOps E ops s0).Grab E H).Drop.ManagedMesh.isSome
            = (runOps E ops s0).ManagedMesh.isSome)
        ∧ ∀ m, ((runOps E ops s0).Grab E H).Drop.ManagedMesh = some m →
            m.bSimulatePhysics = true := by
  have hinv := grabInv_runOps E ops s0 (grabInv_initial s0 h0)
  refine ⟨by rw [hinv.1], fun H => ?_⟩
  have h1 := grabInv_Grab E H _ hinv
  have h2 := grabInv_Drop _ h1
  have hg : ((runOps E ops s0).Grab E H).Drop.bIsGrabbed = false := by
    rcases hg1 : ((runOps E ops s0).Grab E H).bIsGrabbed with _ | _
    · rw [Drop_noop _ (Or.inl hg1)]; exact hg1
    · obtain ⟨m, hm⟩ := Option.isSome_iff_exists.mp (h1.2.1 hg1).1
      exact (Drop_fields m _ hg1 hm).1
  refine ⟨hg, ?_, ?_, h2.2.2 hg⟩
  · have := h2.1
    rw [hg] at this
    exact Option.not_isSome_iff_eq_none.mp (by simp [this])
  · rw [Drop_isSome, Grab_isSome]

/-- C3 witness: a fresh prop that is physicalized, grabbed, ticked and dropped. -/
theorem holder_set_iff_grabbed_witness :
    ((runOps gridEngine
          [EOp.Physicalize (some sampleMesh) 0, EOp.Grab (some sampleHolder),
            EOp.Tick sampleWorld, EOp.Drop]
          (fresh sampleOwner none)).CurrentHolder.isSome = true ↔
      (runOps gridEngine
          [EOp.Physicalize (some sampleMesh) 0, EOp.Grab (some sampleHolder),
            EOp.Tick sampleWorld, EOp.Drop]
          (fresh sampleOwner none)).bIsGrabbed = true)
    ∧ ∀ H : Option USceneComponent,
        ((runOps gridEngine
          [EOp.Physicalize (some sampleMesh) 0, EOp.Grab (some sampleHolder),
            EOp.Tick sampleWorld, EOp.Drop]
          (fresh sampleOwner none)).Grab gridEngine H).Drop.bIsGrabbed = false
        ∧ ((runOps gridEngine
          [EOp.Physicalize (some sampleMesh) 0, EOp.Grab (some sampleHolder),
            EOp.Tick sampleWorld, EOp.Drop]
          (fresh sampleOwner none)).Grab gridEngine H).Drop.CurrentHolder = none
        ∧ (((runOps gridEngine
          [EOp.Physicalize (some sampleMesh) 0, EOp.Grab (some sampleHolder),
            EOp.Tick sampleWorld, EOp.Drop]
          (fresh sampleOwner none)).Grab gridEngine H).Drop.ManagedMesh.isSome
            = (runOps gridEngine
          [EOp.Physicalize (some sampleMesh) 0, EOp.Grab (some sampleHolder),
            EOp.Tick sampleWorld, EOp.Drop]
          (fresh sampleOwner none)).ManagedMesh.isSome)
        ∧ ∀ m, ((runOps gridEngine
          [EOp.Physicalize (some sampleMesh) 0, EOp.Grab (some sampleHolder),
            EOp.Tick sampleWorld, EOp.Drop]
          (fresh sampleOwner none)).Grab gridEngine H).Drop.ManagedMesh = some m →
            m.bSimulatePhysics = true :=
  holder_set_iff_grabbed gridEngine (fresh sampleOwner none)
    [EOp.Physicalize (some sampleMesh) 0, EOp.Grab (some sampleHolder),
      EOp.Tick sampleWorld, EOp.Drop]
    ⟨rfl, rfl, rfl, rfl, rfl⟩

@[simp] theorem call_TimerHandle (c : ECall) (s : UPhysicsPropComponent) :
    (s.call c).TimerHandle_DistanceCheck = s.TimerHandle_DistanceCheck := rfl

@[simp] theorem call_LastImpactTime (c : ECall) (s : UPhysicsPropComponent) :
    (s.call c).LastImpactTime = s.LastImpactTime := rfl

theorem UpdateGrabbedPosition_more (E : FEngine) (W : UWorld) (s : UPhysicsPropComponent) :
    (s.UpdateGrabbedPosition E W).CCDSpeedThreshold = s.CCDSpeedThreshold
    ∧ (s.UpdateGrabbedPosition E W).Log.filter ECall.isSetUseCCD
        = s.Log.filter ECall.isSetUseCCD := by
  rcases UpdateGrabbedPosition_shape E W s with h | ⟨l, r, h⟩
  · rw [h]; exact ⟨rfl, rfl⟩
  · rw [h]
    refine ⟨rfl, ?_⟩
    simp [ECall.isSetUseCCD]

theorem grabLogic_fields (E : FEngine) (W : UWorld) (s : UPhysicsPropComponent) :
    (if (s.bIsGrabbed && s.CurrentHolder.isSome) = true then s.UpdateGrabbedPosition E W
      else s).ManagedMesh = s.ManagedMesh
    ∧ (if (s.bIsGrabbed && s.CurrentHolder.isSome) = true then s.UpdateGrabbedPosition E W
      else s).CCDSpeedThreshold = s.CCDSpeedThreshold
    ∧ (if (s.bIsGrabbed && s.CurrentHolder.isSome) = true then s.UpdateGrabbedPosition E W
      else s).Log.filter ECall.isSetUseCCD = s.Log.filter ECall.isSetUseCCD := by
  split_ifs
  · exact ⟨(UpdateGrabbedPosition_fields E W s).2.2.2, (UpdateGrabbedPosition_more E W s).1,
      (UpdateGrabbedPosition_more E W s).2⟩
  · exact ⟨rfl, rfl, rfl⟩

theorem Tick_ccd (E : FEngine) (W : UWorld) (s : UPhysicsPropComponent)
    (m : UStaticMeshComponent) (hm : s.ManagedMesh = some m) (hT : 0 < s.CCDSpeedThreshold) :
    (s.TickComponent E W).Log.filter ECall.isSetUseCCD
        = s.Log.filter ECall.isSetUseCCD
          ++ (if wantsCCD s.CCDSpeedThreshold m.ComponentVelocity != m.bUseCCD
              then [ECall.SetUseCCD (wantsCCD s.CCDSpeedThreshold m.ComponentVelocity)] else [])
    ∧ (∃ m', (s.TickComponent E W).ManagedMesh = some m'
        ∧ m'.bUseCCD = wantsCCD s.CCDSpeedThreshold m.ComponentVelocity)
    ∧ (s.TickComponent E W).CCDSpeedThreshold = s.CCDSpeedThreshold := by
  unfold TickComponent wantsCCD
  rw [hm]
  simp only [not_le.mpr hT, if_false]
  generalize decide (m.ComponentVelocity.SizeSquared
    > s.CCDSpeedThreshold * s.CCDSpeedThreshold) = w
  by_cases hf : (m.bUseCCD != w) = true
  · have hf' : (w != m.bUseCCD) = true := by
      cases w <;> cases hb : m.bUseCCD <;> simp_all
    simp only [hf, hf', if_true]
    obtain ⟨e1, e2, e3⟩ := grabLogic_fields E W (s.call (ECall.SetUseCCD w))
    rw [e1, e2, e3]
    simp [hm, UStaticMeshComponent.apply, ECall.isSetUseCCD]
  · have hb : m.bUseCCD = w := by simpa using hf
    have hf' : ¬ (w != m.bUseCCD) = true := by simp [hb]
    simp only [hf, hf', Bool.false_eq_true, if_false]
    obtain ⟨e1, e2, e3⟩ := grabLogic_fields E W s
    rw [e1, e2, e3]
    simp [hm, hb]

theorem tickAtVelocity_ccd (E : FEngine) (W : UWorld) (v : FVector) (s : UPhysicsPropComponent)
    (m : UStaticMeshComponent) (hm : s.ManagedMesh = some m) (hT : 0 < s.CCDSpeedThreshold) :
    (tickAtVelocity E W v s).Log.filter ECall.isSetUseCCD
        = s.Log.filter ECall.isSetUseCCD
          ++ (if wantsCCD s.CCDSpeedThreshold v != m.bUseCCD
              then [ECall.SetUseCCD (wantsCCD s.CCDSpeedThreshold v)] else [])
    ∧ (∃ m', (tickAtVelocity E W v s).ManagedMesh = some m'
        ∧ m'.bUseCCD = wantsCCD s.CCDSpeedThreshold v)
    ∧ (tickAtVelocity E W v s).CCDSpeedThreshold = s.CCDSpeedThreshold := by
  have h := Tick_ccd E W
    { s with ManagedMesh := s.ManagedMesh.map (fun m => { m with ComponentVelocity := v }) }
    { m with ComponentVelocity := v } (by simp [hm]) hT
  exact h

theorem runTicks_ccd (E : FEngine) (ticks : List (FVector × UWorld)) (s : UPhysicsPropComponent)
    (m : UStaticMeshComponent) (hm : s.ManagedMesh = some m) (hT : 0 < s.CCDSpeedThreshold) :
    (runTicks E ticks s).Log.filter ECall.isSetUseCCD
      = s.Log.filter ECall.isSetUseCCD
        ++ ccdFlips m.bUseCCD (ticks.map (fun t => wantsCCD s.CCDSpeedThreshold t.1)) := by
  induction ticks generalizing s m with
  | nil => simp [runTicks, ccdFlips]
  | cons t rest ih =>
    obtain ⟨e1, ⟨m', e2, e3⟩, e4⟩ := tickAtVelocity_ccd E t.2 t.1 s m hm hT
    have := ih (tickAtVelocity E t.2 t.1 s) m' e2 (by rw [e4]; exact hT)
    simp only [runTicks, List.foldl_cons, List.map_cons, ccdFlips] at this ⊢
    rw [this, e1, e3, e4, List.append_assoc]

theorem tickAtVelocity_disabled (E : FEngine) (W : UWorld) (v : FVector)
    (s : UPhysicsPropComponent) (hT : s.CCDSpeedThreshold ≤ 0) :
    (tickAtVelocity E W v s).Log = s.Log
    ∧ (tickAtVelocity E W v s).CCDSpeedThreshold = s.CCDSpeedThreshold := by
  unfold tickAtVelocity TickComponent
  rcases s.ManagedMesh with _ | m
  · exact ⟨rfl, rfl⟩
  · simp [hT]

theorem runTicks_disabled (E : FEngine) (ticks : List (FVector × UWorld))
    (s : UPhysicsPropComponent) (hT : s.CCDSpeedThreshold ≤ 0) :
    (runTicks E ticks s).Log = s.Log := by
  induction ticks generalizing s with
  | nil => rfl
  | cons t rest ih =>
    obtain ⟨e1, e2⟩ := tickAtVelocity_disabled E t.2 t.1 s hT
    have := ih (tickAtVelocity E t.2 t.1 s) (by rw [e2]; exact hT)
    simp only [runTicks, List.foldl_cons] at this ⊢
    rw [this, e1]

theorem ccdFlips_chain (flag : Bool) (ds : List Bool) :
    List.Chain (fun a b => a ≠ b) (ECall.SetUseCCD flag) (ccdFlips flag ds) := by
  induction ds generalizing flag with
  | nil => exact List.Chain.nil
  | cons d rest ih =>
    unfold ccdFlips
    by_cases hd : d = flag
    · subst hd; simpa using ih d
    · have : (d != flag) = true := by simpa using hd
      rw [if_pos this]
      exact List.Chain.cons (by simpa using fun h => hd h.symm) (ih d)

theorem ccdFlips_stable (flag : Bool) (ds : List Bool) (h : ∀ d ∈ ds, d = flag) :
    ccdFlips flag ds = [] := by
  induction ds with
  | nil => rfl
  | cons d rest ih =>
    have hd : d = flag := h d (List.mem_cons_self _ _)
    subst hd
    unfold ccdFlips
    simpa using ih (fun x hx => h x (List.mem_cons_of_mem _ hx))

/-- C4. With a present body and `CCDSpeedThreshold > 0`, a tick issues the CCD call exactly
when the desired state (squared speed strictly above the squared threshold) differs from the
applied flag, the call carries the desired state, and after the tick the flag is the desired
state. Over any sequence of ticks with arbitrary velocities the CCD calls issued are
therefore one per change of the desired state: consecutive calls carry opposite values, the
first one differs from the flag applied at the start, and there is none while the desired
state stays the applied one. With `CCDSpeedThreshold = 0` no call at all is issued. -/
theorem ccd_call_only_on_change (E : FEngine) (s : UPhysicsPropComponent)
    (m : UStaticMeshComponent) (hm : s.ManagedMesh = some m) :
    (0 < s.CCDSpeedThreshold →
      (∀ W : UWorld,
        (s.TickComponent E W).Log.filter ECall.isSetUseCCD
          = s.Log.filter ECall.isSetUseCCD
            ++ (if wantsCCD s.CCDSpeedThreshold m.ComponentVelocity != m.bUseCCD
                then [ECall.SetUseCCD (wantsCCD s.CCDSpeedThreshold m.ComponentVelocity)]
                else [])
        ∧ ∃ m', (s.TickComponent E W).ManagedMesh = some m'
            ∧ m'.bUseCCD = wantsCCD s.CCDSpeedThreshold m.ComponentVelocity)
      ∧ ∀ ticks : List (FVector × UWorld),
          (runTicks E ticks s).Log.filter ECall.isSetUseCCD
            = s.Log.filter ECall.isSetUseCCD
              ++ ccdFlips m.bUseCCD (ticks.map (fun t => wantsCCD s.CCDSpeedThreshold t.1))
          ∧ List.Chain (fun a b => a ≠ b) (ECall.SetUseCCD m.bUseCCD)
              (ccdFlips m.bUseCCD (ticks.map (fun t => wantsCCD s.CCDSpeedThreshold t.1)))
          ∧ ((∀ t ∈ ticks, wantsCCD s.CCDSpeedThreshold t.1 = m.bUseCCD) →
              (runTicks E ticks s).Log.filter ECall.isSetUseCCD
                = s.Log.filter ECall.isSetUseCCD))
    ∧ (s.CCDSpeedThreshold = 0 →
        ∀ ticks : List (FVector × UWorld), (runTicks E ticks s).Log = s.Log) := by
  refine ⟨fun hT => ⟨fun W => ?_, fun ticks => ⟨runTicks_ccd E ticks s m hm hT,
    ccdFlips_chain _ _, fun hall => ?_⟩⟩, fun h0 ticks => runTicks_disabled E ticks s (le_of_eq h0)⟩
  · obtain ⟨e1, e2, _⟩ := Tick_ccd E W s m hm hT
    exact ⟨e1, e2⟩
  · rw [runTicks_ccd E ticks s m hm hT, ccdFlips_stable, List.append_nil]
    intro d hd
    obtain ⟨t, ht, rfl⟩ := List.mem_map.mp hd
    exact hall t ht

/-- C4 witness: the idle sample prop (threshold 500, CCD off) ticked at speeds 0, 600, 700
and 100 issues two CCD calls, on at the second tick and off at the fourth; the same prop with
threshold 0 issues no call over any sequence of ticks. -/
theorem ccd_call_only_on_change_witness :
    (runTicks gridEngine
        [(⟨0, 0, 0⟩, sampleWorld), (⟨600, 0, 0⟩, sampleWorld), (⟨700, 0, 0⟩, sampleWorld),
          (⟨100, 0, 0⟩, sampleWorld)] idleProp).Log.filter ECall.isSetUseCCD
      = [ECall.SetUseCCD true, ECall.SetUseCCD false]
    ∧ ∀ ticks : List (FVector × UWorld),
        (runTicks gridEngine ticks { idleProp with CCDSpeedThreshold := 0 }).Log = [] := by
  refine ⟨?_, fun ticks => ?_⟩
  · have h := (((ccd_call_only_on_change gridEngine idleProp sampleMesh rfl).1
      (by norm_num [idleProp, fresh])).2
      [(⟨0, 0, 0⟩, sampleWorld), (⟨600, 0, 0⟩, sampleWorld), (⟨700, 0, 0⟩, sampleWorld),
          (⟨100, 0, 0⟩, sampleWorld)]).1
    rw [h]
    norm_num [idleProp, fresh, sampleMesh, ccdFlips, wantsCCD, FVector.SizeSquared]
  · exact (ccd_call_only_on_change gridEngine { idleProp with CCDSpeedThreshold := 0 }
      sampleMesh rfl).2 rfl ticks

theorem Check_near (W : UWorld) (P : FVector) (s : UPhysicsPropComponent)
    (m : UStaticMeshComponent) (hm : s.ManagedMesh = some m)
    (hz : ¬ s.Owner.ActorLocation.Z < -20000) (hv : W.FirstPlayerViewPoint = some P)
    (hd : ¬ FVector.DistSquared P s.Owner.ActorLocation
            > s.PhysicsCullDistance * s.PhysicsCullDistance) :
    s.CheckDistanceToPlayer (some W) = s.call (ECall.SetComponentTickInterval 0) := by
  unfold CheckDistanceToPlayer
  rw [hm]
  simp only [hz, hv, hd, if_false]

theorem Check_far (W : UWorld) (P : FVector) (s : UPhysicsPropComponent)
    (m : UStaticMeshComponent) (hm : s.ManagedMesh = some m)
    (hz : ¬ s.Owner.ActorLocation.Z < -20000) (hv : W.FirstPlayerViewPoint = some P)
    (hd : FVector.DistSquared P s.Owner.ActorLocation
            > s.PhysicsCullDistance * s.PhysicsCullDistance) :
    s.CheckDistanceToPlayer (some W)
      = (if (m.bSimulatePhysics && m.bAwake) = true then s.call ECall.PutAllRigidBodiesToSleep
          else s).call (ECall.SetComponentTickInterval 1) := by
  unfold CheckDistanceToPlayer
  rw [hm]
  simp only [hz, hv, hd, if_false, if_true]

/-- C5. For a prop with a body, above the depth floor, with a view point and
`PhysicsCullDistance = 3000`: when the squared view distance is at most 3000² the evaluation
issues exactly one call, the tick interval set to 0, and no force-sleep; when it is greater
than 3000² the evaluation sets the tick interval to 1, preceded by a force-sleep exactly
when the body is simulating and awake, which leaves the body asleep; and a second
evaluation in the state the first one leaves issues only the tick interval call, no
force-sleep. -/
theorem proximity_evaluation_cull_3000 (W : UWorld) (P : FVector) (s : UPhysicsPropComponent)
    (m : UStaticMeshComponent) (hm : s.ManagedMesh = some m)
    (hz : ¬ s.Owner.ActorLocation.Z < -20000) (hv : W.FirstPlayerViewPoint = some P)
    (hc : s.PhysicsCullDistance = 3000) :
    (FVector.DistSquared P s.Owner.ActorLocation ≤ 3000 ^ 2 →
      (s.CheckDistanceToPlayer (some W)).Log = s.Log ++ [ECall.SetComponentTickInterval 0]
      ∧ (s.CheckDistanceToPlayer (some W)).ManagedMesh = some { m with TickInterval := 0 })
    ∧ (FVector.DistSquared P s.Owner.ActorLocation > 3000 ^ 2 →
      (s.CheckDistanceToPlayer (some W)).Log
          = s.Log ++ (if m.bSimulatePhysics = true ∧ m.bAwake = true
                        then [ECall.PutAllRigidBodiesToSleep] else [])
              ++ [ECall.SetComponentTickInterval 1]
      ∧ (s.CheckDistanceToPlayer (some W)).ManagedMesh
          = some { m with
              TickInterval := 1
              bAwake := if m.bSimulatePhysics = true ∧ m.bAwake = true then false
                        else m.bAwake }
      ∧ ((s.CheckDistanceToPlayer (some W)).CheckDistanceToPlayer (some W)).Log
          = (s.CheckDistanceToPlayer (some W)).Log ++ [ECall.SetComponentTickInterval 1]) := by
  have hsq : s.PhysicsCullDistance * s.PhysicsCullDistance = 3000 ^ 2 := by rw [hc]; norm_num
  constructor
  · intro hd
    rw [Check_near W P s m hm hz hv (by rw [hsq]; exact not_lt.mpr hd)]
    simp [hm, UStaticMeshComponent.apply]
  · intro hd
    have h1 := Check_far W P s m hm hz hv (by rw [hsq]; exact hd)
    rcases hs : m.bSimulatePhysics with _ | _ <;> rcases ha : m.bAwake with _ | _
    all_goals
      rw [hs, ha] at h1
      simp only [Bool.and_true, Bool.and_false, Bool.false_eq_true, if_false, if_true] at h1
      have hm1 := congrArg UPhysicsPropComponent.ManagedMesh h1
      simp only [call_ManagedMesh, hm, Option.map_some', UStaticMeshComponent.apply] at hm1
      have h2 := Check_far W P (s.CheckDistanceToPlayer (some W)) _ hm1
        (by rw [h1]; exact hz) hv (by rw [h1]; simpa [hsq] using hd)
      rw [h2]
      refine ⟨?_, ?_, ?_⟩
      · rw [h1]; simp
      · rw [hm1]; simp [hs, ha]
      · simp [hs, ha]

/-- C5 witness: the idle sample prop (awake, simulating, cull distance 3000) viewed from
2999 units and from 3001 units. -/
theorem proximity_evaluation_cull_3000_witness :
    (idleProp.CheckDistanceToPlayer (some (worldViewedFrom ⟨3149, 0, 0⟩))).Log
        = [ECall.SetComponentTickInterval 0]
    ∧ (idleProp.CheckDistanceToPlayer (some (worldViewedFrom ⟨3151, 0, 0⟩))).Log
        = [ECall.PutAllRigidBodiesToSleep, ECall.SetComponentTickInterval 1]
    ∧ ((idleProp.CheckDistanceToPlayer (some (worldViewedFrom ⟨3151, 0, 0⟩))).CheckDistanceToPlayer
          (some (worldViewedFrom ⟨3151, 0, 0⟩))).Log
        = [ECall.PutAllRigidBodiesToSleep, ECall.SetComponentTickInterval 1,
            ECall.SetComponentTickInterval 1] := by
  have hnear := (proximity_evaluation_cull_3000 (worldViewedFrom ⟨3149, 0, 0⟩) ⟨3149, 0, 0⟩
    idleProp sampleMesh rfl (by norm_num [idleProp, fresh, sampleOwner]) rfl rfl).1
    (by norm_num [idleProp, fresh, sampleOwner, FVector.DistSquared, FVector.SizeSquared,
      FVector.sub])
  have hfar := (proximity_evaluation_cull_3000 (worldViewedFrom ⟨3151, 0, 0⟩) ⟨3151, 0, 0⟩
    idleProp sampleMesh rfl (by norm_num [idleProp, fresh, sampleOwner]) rfl rfl).2
    (by norm_num [idleProp, fresh, sampleOwner, FVector.DistSquared, FVector.SizeSquared,
      FVector.sub])
  refine ⟨?_, ?_, ?_⟩
  · rw [hnear.1]; rfl
  · rw [hfar.1]; simp [sampleMesh, idleProp, fresh]
  · rw [hfar.2.2, hfar.1]; simp [sampleMesh, idleProp, fresh]

/-- C6 counterexample. The idle sample prop viewed from 3001 units: the second evaluation,
run in the state the first one leaves and at the same distance, issues the tick interval
call again, so its trace of calls is not empty. -/
theorem proximity_second_run_calls_again :
    ((idleProp.CheckDistanceToPlayer (some (worldViewedFrom ⟨3151, 0, 0⟩))).CheckDistanceToPlayer
        (some (worldViewedFrom ⟨3151, 0, 0⟩))).Log
      = (idleProp.CheckDistanceToPlayer (some (worldViewedFrom ⟨3151, 0, 0⟩))).Log
          ++ [ECall.SetComponentTickInterval 1]
    ∧ ((idleProp.CheckDistanceToPlayer (some (worldViewedFrom ⟨3151, 0, 0⟩))).CheckDistanceToPlayer
        (some (worldViewedFrom ⟨3151, 0, 0⟩))).Log
      ≠ (idleProp.CheckDistanceToPlayer (some (worldViewedFrom ⟨3151, 0, 0⟩))).Log := by
  have h : ((idleProp.CheckDistanceToPlayer
        (some (worldViewedFrom ⟨3151, 0, 0⟩))).CheckDistanceToPlayer
        (some (worldViewedFrom ⟨3151, 0, 0⟩))).Log
      = (idleProp.CheckDistanceToPlayer (some (worldViewedFrom ⟨3151, 0, 0⟩))).Log
          ++ [ECall.SetComponentTickInterval 1] := by
    norm_num [CheckDistanceToPlayer, idleProp, fresh, sampleOwner, sampleMesh, worldViewedFrom,
      sampleWorld, FVector.DistSquared, FVector.SizeSquared, FVector.sub, call,
      UStaticMeshComponent.apply]
  exact ⟨h, by rw [h]; simp⟩

theorem Check_absent (World : Option UWorld) (s : UPhysicsPropComponent)
    (h : s.ManagedMesh = none ∨ World = none) : s.CheckDistanceToPlayer World = s := by
  unfold CheckDistanceToPlayer
  rcases h with h | h
  · rw [h]
  · rw [h]; cases s.ManagedMesh <;> rfl

theorem Check_below (W : UWorld) (s : UPhysicsPropComponent) (m : UStaticMeshComponent)
    (hm : s.ManagedMesh = some m) (hz : s.Owner.ActorLocation.Z < -20000) :
    s.CheckDistanceToPlayer (some W) = s.call ECall.Destroy := by
  unfold CheckDistanceToPlayer
  rw [hm]
  simp only [hz, if_true]

theorem Check_noview (W : UWorld) (s : UPhysicsPropComponent) (m : UStaticMeshComponent)
    (hm : s.ManagedMesh = some m) (hz : ¬ s.Owner.ActorLocation.Z < -20000)
    (hv : W.FirstPlayerViewPoint = none) :
    s.CheckDistanceToPlayer (some W) = s := by
  unfold CheckDistanceToPlayer
  rw [hm]
  simp only [hz, hv, if_false]

theorem Check_viewed_twice (W : UWorld) (P : FVector) (s : UPhysicsPropComponent)
    (m : UStaticMeshComponent) (hm : s.ManagedMesh = some m)
    (hz : ¬ s.Owner.ActorLocation.Z < -20000) (hv : W.FirstPlayerViewPoint = some P) :
    ∃ (t : ℚ) (pre : List ECall) (m1 : UStaticMeshComponent),
      (pre = [] ∨ pre = [ECall.PutAllRigidBodiesToSleep])
      ∧ (s.CheckDistanceToPlayer (some W)).Log
          = s.Log ++ pre ++ [ECall.SetComponentTickInterval t]
      ∧ (s.CheckDistanceToPlayer (some W)).ManagedMesh = some m1
      ∧ m1.TickInterval = t
      ∧ ((s.CheckDistanceToPlayer (some W)).CheckDistanceToPlayer (some W)).Log
          = (s.CheckDistanceToPlayer (some W)).Log ++ [ECall.SetComponentTickInterval t]
      ∧ ((s.CheckDistanceToPlayer (some W)).CheckDistanceToPlayer (some W)).ManagedMesh
          = some m1 := by
  by_cases hd : FVector.DistSquared P s.Owner.ActorLocation
      > s.PhysicsCullDistance * s.PhysicsCullDistance
  · have h1 := Check_far W P s m hm hz hv hd
    rcases hb : (m.bSimulatePhysics && m.bAwake) with _ | _
    · rw [hb] at h1
      simp only [Bool.false_eq_true, if_false] at h1
      have hm1 := congrArg UPhysicsPropComponent.ManagedMesh h1
      simp only [call_ManagedMesh, hm, Option.map_some', UStaticMeshComponent.apply] at hm1
      have h2 := Check_far W P (s.CheckDistanceToPlayer (some W)) _ hm1
        (by rw [h1]; exact hz) hv (by rw [h1]; exact hd)
      simp only [hb, Bool.false_eq_true, if_false] at h2
      refine ⟨1, [], _, Or.inl rfl, ?_, hm1, rfl, ?_, ?_⟩
      · rw [h1]; simp
      · rw [h2]; simp
      · rw [h2]; simp [hm1, UStaticMeshComponent.apply]
    · rw [hb] at h1
      simp only [if_true] at h1
      have hm1 := congrArg UPhysicsPropComponent.ManagedMesh h1
      simp only [call_ManagedMesh, hm, Option.map_some', Option.map_map, Function.comp,
        UStaticMeshComponent.apply] at hm1
      have h2 := Check_far W P (s.CheckDistanceToPlayer (some W)) _ hm1
        (by rw [h1]; exact hz) hv (by rw [h1]; exact hd)
      simp only [Bool.and_false, Bool.false_eq_true, if_false] at h2
      refine ⟨1, [ECall.PutAllRigidBodiesToSleep], _, Or.inr rfl, ?_, hm1, rfl, ?_, ?_⟩
      · rw [h1]; simp
      · rw [h2]; simp
      · rw [h2]; simp [hm1, UStaticMeshComponent.apply]
  · have h1 := Check_near W P s m hm hz hv hd
    have hm1 := congrArg UPhysicsPropComponent.ManagedMesh h1
    simp only [call_ManagedMesh, hm, Option.map_some', UStaticMeshComponent.apply] at hm1
    have h2 := Check_near W P (s.CheckDistanceToPlayer (some W)) _ hm1
      (by rw [h1]; exact hz) hv (by rw [h1]; exact hd)
    refine ⟨0, [], _, Or.inl rfl, ?_, hm1, rfl, ?_, ?_⟩
    · rw [h1]; simp
    · rw [h2]; simp
    · rw [h2]; simp [hm1, UStaticMeshComponent.apply]

/-- C6 amended. For every prop state and every world, a second proximity evaluation run in
the state the first one leaves issues no force-sleep call and leaves the body as the first
run left it. With a body, above the depth floor and with a view point, the first run ends
with the tick interval call and the second run issues exactly that call again, with the
same value, which is the interval the body already has. -/
theorem proximity_second_run_no_sleep (World : Option UWorld) (s : UPhysicsPropComponent) :
    (((s.CheckDistanceToPlayer World).CheckDistanceToPlayer World).ManagedMesh
        = (s.CheckDistanceToPlayer World).ManagedMesh
      ∧ ∃ L : List ECall,
          ((s.CheckDistanceToPlayer World).CheckDistanceToPlayer World).Log
              = (s.CheckDistanceToPlayer World).Log ++ L
          ∧ ECall.PutAllRigidBodiesToSleep ∉ L)
    ∧ ∀ (W : UWorld) (P : FVector) (m : UStaticMeshComponent),
        World = some W → s.ManagedMesh = some m → ¬ s.Owner.ActorLocation.Z < -20000 →
        W.FirstPlayerViewPoint = some P →
        ∃ (t : ℚ) (pre : List ECall) (m1 : UStaticMeshComponent),
          (pre = [] ∨ pre = [ECall.PutAllRigidBodiesToSleep])
          ∧ (s.CheckDistanceToPlayer World).Log
              = s.Log ++ pre ++ [ECall.SetComponentTickInterval t]
          ∧ (s.CheckDistanceToPlayer World).ManagedMesh = some m1
          ∧ m1.TickInterval = t
          ∧ ((s.CheckDistanceToPlayer World).CheckDistanceToPlayer World).Log
              = (s.CheckDistanceToPlayer World).Log ++ [ECall.SetComponentTickInterval t] := by
  constructor
  · rcases World with _ | W
    · rw [Check_absent none s (Or.inr rfl), Check_absent none s (Or.inr rfl)]
      exact ⟨rfl, [], by simp, by simp⟩
    rcases hm : s.ManagedMesh with _ | m
    · rw [Check_absent _ s (Or.inl hm), Check_absent _ s (Or.inl hm)]
      exact ⟨rfl, [], by simp, by simp⟩
    by_cases hz : s.Owner.ActorLocation.Z < -20000
    · have h1 := Check_below W s m hm hz
      have hm1 : (s.CheckDistanceToPlayer (some W)).ManagedMesh = some m := by
        rw [h1, call_ManagedMesh, hm]; rfl
      have h2 := Check_below W (s.CheckDistanceToPlayer (some W)) m hm1 (by rw [h1]; exact hz)
      rw [h2]
      refine ⟨?_, [ECall.Destroy], rfl, by simp⟩
      rw [call_ManagedMesh, hm1]; rfl
    rcases hv : W.FirstPlayerViewPoint with _ | P
    · rw [Check_noview W s m hm hz hv, Check_noview W s m hm hz hv]
      exact ⟨rfl, [], by simp, by simp⟩
    · obtain ⟨t, pre, m1, _, _, e3, _, e5, e6⟩ := Check_viewed_twice W P s m hm hz hv
      exact ⟨by rw [e6, e3], [ECall.SetComponentTickInterval t], e5, by simp⟩
  · intro W P m hW hm hz hv
    subst hW
    obtain ⟨t, pre, m1, e1, e2, e3, e4, e5, _⟩ := Check_viewed_twice W P s m hm hz hv
    exact ⟨t, pre, m1, e1, e2, e3, e4, e5⟩

/-- C6 witness: the idle sample prop viewed from 3001 units, evaluated twice. -/
theorem proximity_second_run_no_sleep_witness :
    ∃ (t : ℚ) (pre : List ECall) (m1 : UStaticMeshComponent),
      (pre = [] ∨ pre = [ECall.PutAllRigidBodiesToSleep])
      ∧ (idleProp.CheckDistanceToPlayer (some (worldViewedFrom ⟨3151, 0, 0⟩))).Log
          = idleProp.Log ++ pre ++ [ECall.SetComponentTickInterval t]
      ∧ (idleProp.CheckDistanceToPlayer (some (worldViewedFrom ⟨3151, 0, 0⟩))).ManagedMesh
          = some m1
      ∧ m1.TickInterval = t
      ∧ ((idleProp.CheckDistanceToPlayer
            (some (worldViewedFrom ⟨3151, 0, 0⟩))).CheckDistanceToPlayer
            (some (worldViewedFrom ⟨3151, 0, 0⟩))).Log
          = (idleProp.CheckDistanceToPlayer (some (worldViewedFrom ⟨3151, 0, 0⟩))).Log
              ++ [ECall.SetComponentTickInterval t] :=
  (proximity_second_run_no_sleep (some (worldViewedFrom ⟨3151, 0, 0⟩)) idleProp).2
    (worldViewedFrom ⟨3151, 0, 0⟩) ⟨3151, 0, 0⟩ sampleMesh rfl rfl
    (by norm_num [idleProp, fresh, sampleOwner]) rfl

theorem OnTakePointDamage_log (Damage : ℚ) (HitLocation : FVector) (BoneName : FName)
    (Shot : FVector) (dt : UDamageType) (s : UPhysicsPropComponent) (m : UStaticMeshComponent)
    (hm : s.ManagedMesh = some m) (hs : m.bSimulatePhysics = true) :
    (s.OnTakePointDamage Damage HitLocation BoneName Shot dt).Log
      = s.Log ++ wakeCalls (resolveModifier .Point dt).2
          ++ [ECall.AddImpulseAtLocation (Shot.scale (Damage * (resolveModifier .Point dt).1))
                HitLocation BoneName] := by
  unfold OnTakePointDamage
  rw [hm]
  rcases dt with _ | ⟨p, w⟩ | k
  · simp [hs, resolveModifier, baseMultiplier, wakeCalls]
  · cases w <;> simp [hs, resolveModifier, wakeCalls]
  · simp [hs, resolveModifier, baseMultiplier, wakeCalls]

theorem OnTakeRadialDamage_log (Damage : ℚ) (dt : UDamageType) (Origin : FVector)
    (s : UPhysicsPropComponent) (m : UStaticMeshComponent)
    (hm : s.ManagedMesh = some m) (hs : m.bSimulatePhysics = true) :
    (s.OnTakeRadialDamage Damage dt Origin).Log
      = s.Log ++ wakeCalls (resolveModifier .Radial dt).2
          ++ [ECall.AddRadialImpulse Origin 500 (Damage * (resolveModifier .Radial dt).1)
                true true] := by
  unfold OnTakeRadialDamage
  rw [hm]
  rcases dt with _ | ⟨p, w⟩ | k
  · simp [hs, resolveModifier, baseMultiplier, wakeCalls]
  · cases w <;> simp [hs, resolveModifier, wakeCalls]
  · simp [hs, resolveModifier, baseMultiplier, wakeCalls]

theorem OnTakeAnyDamage_log (E : FEngine) (Damage : ℚ) (dt : UDamageType)
    (InstigatedBy : Option AController) (DamageCauser : Option AActor)
    (s : UPhysicsPropComponent) (m : UStaticMeshComponent)
    (hm : s.ManagedMesh = some m) (hs : m.bSimulatePhysics = true) :
    (s.OnTakeAnyDamage E Damage dt InstigatedBy DamageCauser).Log
      = s.Log ++ [ECall.SetComponentTickInterval 0] ++ wakeCalls (resolveModifier .Any dt).2
          ++ [ECall.AddImpulse
                ((anyDamageDirection E m InstigatedBy DamageCauser).scale
                  (Damage * (resolveModifier .Any dt).1)) none true] := by
  unfold OnTakeAnyDamage
  rw [hm]
  have hd : (match InstigatedBy, DamageCauser with
      | some Instigator, _ => E.RotatorVector Instigator.ControlRotation
      | none, some Causer => E.GetSafeNormal (m.ComponentLocation.sub Causer.ActorLocation)
      | none, none => FVector.UpVector) = anyDamageDirection E m InstigatedBy DamageCauser := by
    unfold anyDamageDirection
    rcases InstigatedBy with _ | i <;> rcases DamageCauser with _ | c <;> rfl
  rcases dt with _ | ⟨p, w⟩ | k
  · simp [hs, hd, resolveModifier, baseMultiplier, wakeCalls]
  · cases w <;> simp [hs, hd, resolveModifier, wakeCalls]
  · simp [hs, hd, resolveModifier, baseMultiplier, wakeCalls]

theorem damage_noop (E : FEngine) (Damage : ℚ) (dt : UDamageType)
    (InstigatedBy : Option AController) (DamageCauser : Option AActor)
    (HitLocation : FVector) (BoneName : FName) (Shot Origin : FVector)
    (s : UPhysicsPropComponent)
    (h : s.ManagedMesh = none ∨ ∃ m, s.ManagedMesh = some m ∧ m.bSimulatePhysics = false) :
    s.OnTakeAnyDamage E Damage dt InstigatedBy DamageCauser = s
    ∧ s.OnTakePointDamage Damage HitLocation BoneName Shot dt = s
    ∧ s.OnTakeRadialDamage Damage dt Origin = s := by
  unfold OnTakeAnyDamage OnTakePointDamage OnTakeRadialDamage
  rcases h with h | ⟨m, hm, hs⟩
  · rw [h]; exact ⟨rfl, rfl, rfl⟩
  · rw [hm]; simp [hs]

/-- C7. On a present, simulating body the three damage translators issue, after the tick
interval reset of the any-damage translator, a force-wake call exactly when the resolved
wake flag is true, and then the impulse scaled by damage × resolved multiplier, where
(multiplier, wake) is: (base, true) without modifier, (power, forceWake) for
explicit-impulse on any and point events and (power × 4, forceWake) on radial events,
(base × k, true) for scaled-impulse, with base 500 for any and point and 2000 for radial.
When the body is absent or not simulating the translators issue no call and change nothing. -/
theorem damage_translators_resolve (E : FEngine) (Damage : ℚ) (dt : UDamageType)
    (InstigatedBy : Option AController) (DamageCauser : Option AActor)
    (HitLocation : FVector) (BoneName : FName) (Shot Origin : FVector)
    (s : UPhysicsPropComponent) :
    (∀ m, s.ManagedMesh = some m → m.bSimulatePhysics = true →
      (s.OnTakeAnyDamage E Damage dt InstigatedBy DamageCauser).Log
          = s.Log ++ [ECall.SetComponentTickInterval 0]
            ++ (if (resolveModifier .Any dt).2 = true then [ECall.WakeAllRigidBodies] else [])
            ++ [ECall.AddImpulse
                  ((anyDamageDirection E m InstigatedBy DamageCauser).scale
                    (Damage * (resolveModifier .Any dt).1)) none true]
      ∧ (s.OnTakePointDamage Damage HitLocation BoneName Shot dt).Log
          = s.Log
            ++ (if (resolveModifier .Point dt).2 = true then [ECall.WakeAllRigidBodies] else [])
            ++ [ECall.AddImpulseAtLocation (Shot.scale (Damage * (resolveModifier .Point dt).1))
                  HitLocation BoneName]
      ∧ (s.OnTakeRadialDamage Damage dt Origin).Log
          = s.Log
            ++ (if (resolveModifier .Radial dt).2 = true then [ECall.WakeAllRigidBodies] else [])
            ++ [ECall.AddRadialImpulse Origin 500 (Damage * (resolveModifier .Radial dt).1)
                  true true])
    ∧ ((s.ManagedMesh = none ∨ ∃ m, s.ManagedMesh = some m ∧ m.bSimulatePhysics = false) →
        s.OnTakeAnyDamage E Damage dt InstigatedBy DamageCauser = s
        ∧ s.OnTakePointDamage Damage HitLocation BoneName Shot dt = s
        ∧ s.OnTakeRadialDamage Damage dt Origin = s)
    ∧ (resolveModifier .Any .Other = (500, true)
        ∧ resolveModifier .Point .Other = (500, true)
        ∧ resolveModifier .Radial .Other = (2000, true))
    ∧ (∀ (power : ℚ) (forceWake : Bool),
        resolveModifier .Any (.PhysicsProp power forceWake) = (power, forceWake)
        ∧ resolveModifier .Point (.PhysicsProp power forceWake) = (power, forceWake)
        ∧ resolveModifier .Radial (.PhysicsProp power forceWake) = (power * 4, forceWake))
    ∧ (∀ k : ℚ,
        resolveModifier .Any (.Generic k) = (500 * k, true)
        ∧ resolveModifier .Point (.Generic k) = (500 * k, true)
        ∧ resolveModifier .Radial (.Generic k) = (2000 * k, true)) := by
  refine ⟨fun m hm hs => ⟨?_, ?_, ?_⟩, ?_, ⟨rfl, rfl, rfl⟩, fun _ _ => ⟨rfl, rfl, rfl⟩,
    fun _ => ⟨rfl, rfl, rfl⟩⟩
  · exact OnTakeAnyDamage_log E Damage dt InstigatedBy DamageCauser s m hm hs
  · exact OnTakePointDamage_log Damage HitLocation BoneName Shot dt s m hm hs
  · exact OnTakeRadialDamage_log Damage dt Origin s m hm hs
  · exact damage_noop E Damage dt InstigatedBy DamageCauser HitLocation BoneName Shot Origin s

/-- C7 witness: point damage 10 with explicit-impulse (100, no wake) on the asleep sample
prop issues the impulse alone; radial damage 5 without modifier wakes the body and passes
strength 5 × 2000; and a prop without body issues nothing. -/
theorem damage_translators_resolve_witness :
    (asleepProp.OnTakePointDamage 10 ⟨150, 0, 10⟩ none ⟨1, 0, 0⟩ (.PhysicsProp 100 false)).Log
        = [ECall.AddImpulseAtLocation (FVector.scale ⟨1, 0, 0⟩ (10 * 100)) ⟨150, 0, 10⟩ none]
    ∧ (asleepProp.OnTakeRadialDamage 5 .Other ⟨0, 0, 0⟩).Log
        = [ECall.WakeAllRigidBodies, ECall.AddRadialImpulse ⟨0, 0, 0⟩ 500 (5 * 2000) true true]
    ∧ (fresh sampleOwner none).OnTakePointDamage 10 ⟨150, 0, 10⟩ none ⟨1, 0, 0⟩
          (.PhysicsProp 100 false) = fresh sampleOwner none := by
  have h := damage_translators_resolve gridEngine 10 (.PhysicsProp 100 false) none none
    ⟨150, 0, 10⟩ none ⟨1, 0, 0⟩ ⟨0, 0, 0⟩ asleepProp
  have h' := damage_translators_resolve gridEngine 5 .Other none none
    ⟨150, 0, 10⟩ none ⟨1, 0, 0⟩ ⟨0, 0, 0⟩ asleepProp
  have h'' := damage_translators_resolve gridEngine 10 (.PhysicsProp 100 false) none none
    ⟨150, 0, 10⟩ none ⟨1, 0, 0⟩ ⟨0, 0, 0⟩ (fresh sampleOwner none)
  refine ⟨?_, ?_, (h''.2.1 (Or.inl rfl)).2.1⟩
  · rw [(h.1 _ rfl rfl).2.1]
    simp [asleepProp, idleProp, fresh, resolveModifier]
  · rw [(h'.1 _ rfl rfl).2.2]
    simp [asleepProp, idleProp, fresh, resolveModifier, baseMultiplier]

theorem scale_SizeSquared (v : FVector) (k : ℚ) :
    (v.scale k).SizeSquared = v.SizeSquared * k ^ 2 := by
  simp only [FVector.SizeSquared, FVector.scale]
  ring

/-- C8 counterexample. Point damage 10 with explicit-impulse (100, no wake) and the shot
direction (2, 0, 0): the impulse handed to the body is (2000, 0, 0), of length 2000, and its
squared length is not (10 × 100)². -/
theorem point_impulse_magnitude_not_product :
    (idleProp.OnTakePointDamage 10 ⟨150, 0, 10⟩ none ⟨2, 0, 0⟩ (.PhysicsProp 100 false)).Log
        = [ECall.AddImpulseAtLocation ⟨2000, 0, 0⟩ ⟨150, 0, 10⟩ none]
    ∧ gridEngine.Size ⟨2000, 0, 0⟩ = 2000
    ∧ FVector.SizeSquared ⟨2000, 0, 0⟩ ≠ (10 * 100) ^ 2 := by
  refine ⟨?_, ?_, ?_⟩
  · norm_num [OnTakePointDamage, idleProp, fresh, sampleMesh, call, FVector.scale]
  · have h : FVector.SizeSquared ⟨2000, 0, 0⟩ = ((2000 : ℕ) : ℚ) * (2000 : ℕ) := by
      norm_num [FVector.SizeSquared]
    unfold FEngine.Size
    rw [h, gridEngine_Sqrt_sq]
    norm_num
  · norm_num [FVector.SizeSquared]

/-- C8 amended. On a present, simulating body the impulse handed to the body is the
direction scaled by damage × resolved multiplier: for point events the shot direction,
applied at the hit location; for any events the resolved direction, applied at the centre
of mass. Its squared length is the squared length of the direction times
(damage × multiplier)², hence (damage × multiplier)² whenever the direction has unit
length, as the up vector used without instigator and causer has. For radial events the
strength passed to the radial impulse (radius 500, linear falloff) is
damage × multiplier. -/
theorem damage_impulse_is_scaled_direction (E : FEngine) (Damage : ℚ) (dt : UDamageType)
    (InstigatedBy : Option AController) (DamageCauser : Option AActor)
    (HitLocation : FVector) (BoneName : FName) (Shot Origin : FVector)
    (s : UPhysicsPropComponent) (m : UStaticMeshComponent)
    (hm : s.ManagedMesh = some m) (hs : m.bSimulatePhysics = true) :
    ((s.OnTakePointDamage Damage HitLocation BoneName Shot dt).Log.getLast?
        = some (ECall.AddImpulseAtLocation
            (Shot.scale (Damage * (resolveModifier .Point dt).1)) HitLocation BoneName)
      ∧ (Shot.scale (Damage * (resolveModifier .Point dt).1)).SizeSquared
          = Shot.SizeSquared * (Damage * (resolveModifier .Point dt).1) ^ 2
      ∧ (Shot.SizeSquared = 1 →
          (Shot.scale (Damage * (resolveModifier .Point dt).1)).SizeSquared
            = (Damage * (resolveModifier .Point dt).1) ^ 2))
    ∧ ((s.OnTakeAnyDamage E Damage dt InstigatedBy DamageCauser).Log.getLast?
        = some (ECall.AddImpulse
            ((anyDamageDirection E m InstigatedBy DamageCauser).scale
              (Damage * (resolveModifier .Any dt).1)) none true)
      ∧ ((anyDamageDirection E m InstigatedBy DamageCauser).scale
            (Damage * (resolveModifier .Any dt).1)).SizeSquared
          = (anyDamageDirection E m InstigatedBy DamageCauser).SizeSquared
              * (Damage * (resolveModifier .Any dt).1) ^ 2
      ∧ ((anyDamageDirection E m InstigatedBy DamageCauser).SizeSquared = 1 →
          ((anyDamageDirection E m InstigatedBy DamageCauser).scale
              (Damage * (resolveModifier .Any dt).1)).SizeSquared
            = (Damage * (resolveModifier .Any dt).1) ^ 2)
      ∧ (anyDamageDirection E m none none).SizeSquared = 1)
    ∧ (s.OnTakeRadialDamage Damage dt Origin).Log.getLast?
        = some (ECall.AddRadialImpulse Origin 500 (Damage * (resolveModifier .Radial dt).1)
            true true) := by
  refine ⟨⟨?_, scale_SizeSquared _ _, fun h => ?_⟩, ⟨?_, scale_SizeSquared _ _, fun h => ?_, ?_⟩,
    ?_⟩
  · rw [OnTakePointDamage_log Damage HitLocation BoneName Shot dt s m hm hs, List.getLast?_concat]
  · rw [scale_SizeSquared, h, one_mul]
  · rw [OnTakeAnyDamage_log E Damage dt InstigatedBy DamageCauser s m hm hs, List.getLast?_concat]
  · rw [scale_SizeSquared, h, one_mul]
  · norm_num [anyDamageDirection, FVector.UpVector, FVector.SizeSquared]
  · rw [OnTakeRadialDamage_log Damage dt Origin s m hm hs, List.getLast?_concat]

/-- C8 witness: on the asleep sample prop, point damage 10 with explicit-impulse
(100, no wake) along the unit vector (1, 0, 0) hands over an impulse of squared length
1000², and radial damage 5 without modifier passes strength 10000. -/
theorem damage_impulse_is_scaled_direction_witness :
    ((asleepProp.OnTakePointDamage 10 ⟨150, 0, 10⟩ none ⟨1, 0, 0⟩
          (.PhysicsProp 100 false)).Log.getLast?
        = some (ECall.AddImpulseAtLocation ⟨1000, 0, 0⟩ ⟨150, 0, 10⟩ none)
      ∧ FVector.SizeSquared ⟨1000, 0, 0⟩ = 1000 ^ 2)
    ∧ (asleepProp.OnTakeRadialDamage 5 .Other ⟨0, 0, 0⟩).Log.getLast?
        = some (ECall.AddRadialImpulse ⟨0, 0, 0⟩ 500 10000 true true) := by
  have h := damage_impulse_is_scaled_direction gridEngine 10 (.PhysicsProp 100 false) none none
    ⟨150, 0, 10⟩ none ⟨1, 0, 0⟩ ⟨0, 0, 0⟩ asleepProp _ rfl rfl
  have h' := damage_impulse_is_scaled_direction gridEngine 5 .Other none none
    ⟨150, 0, 10⟩ none ⟨1, 0, 0⟩ ⟨0, 0, 0⟩ asleepProp _ rfl rfl
  refine ⟨⟨?_, ?_⟩, ?_⟩
  · rw [h.1.1]
    norm_num [resolveModifier, FVector.scale]
  · norm_num [FVector.SizeSquared]
  · rw [h'.2.2]
    norm_num [resolveModifier, baseMultiplier]

theorem OnComponentHit_gate (E : FEngine) (W : UWorld) (NormalImpulse : FVector)
    (Hit : FHitResult) (Pitch : ℚ) (s : UPhysicsPropComponent) (Table : UPropPhysicsImpactData)
    (ht : s.ImpactTable = some Table)
    (hc : ¬ W.TimeSeconds - s.LastImpactTime < s.ImpactCooldown) :
    s.OnComponentHit E (some W) NormalImpulse Hit Pitch
      = if impactIntensity E NormalImpulse s.ManagedMesh < s.MinImpactThreshold then s
        else
          match (resolvedEntry Table Hit).ImpactSound with
          | some Sound =>
            { s.call (ECall.PlaySoundAtLocation Sound Hit.ImpactPoint
                (FMath.GetMappedRangeValueClamped s.MinImpactThreshold
                    (s.MinImpactThreshold * 5) (1 / 5) 1
                    (impactIntensity E NormalImpulse s.ManagedMesh)
                  * (resolvedEntry Table Hit).VolumeMultiplier) Pitch) with
              LastImpactTime := W.TimeSeconds }
          | none => s := by
  unfold OnComponentHit
  rw [ht]
  simp only [hc, if_false]
  have hi : (match s.ManagedMesh with
      | some m => if m.Mass > (0 : ℚ) then E.Size NormalImpulse / m.Mass
                  else E.Size NormalImpulse
      | none => E.Size NormalImpulse) = impactIntensity E NormalImpulse s.ManagedMesh := by
    unfold impactIntensity; rfl
  have he : (match Table.Find Hit.PhysMaterial with
      | some e => e
      | none => Table.DefaultSound) = resolvedEntry Table Hit := by
    unfold resolvedEntry
    cases Table.Find Hit.PhysMaterial <;> rfl
  rw [hi, he]

theorem OnComponentHit_cooldown (E : FEngine) (World : Option UWorld) (NormalImpulse : FVector)
    (Hit : FHitResult) (Pitch : ℚ) (s : UPhysicsPropComponent)
    (hc : ∀ W, World = some W → W.TimeSeconds - s.LastImpactTime < s.ImpactCooldown) :
    s.OnComponentHit E World NormalImpulse Hit Pitch = s := by
  unfold OnComponentHit
  rcases s.ImpactTable with _ | Table
  · rfl
  · rcases World with _ | W
    · rfl
    · simp only [hc W rfl, if_true]

theorem mapped_volume (T I mult : ℚ) (hT : 0 < T) (hI : T ≤ I) (hm : 0 ≤ mult) :
    FMath.GetMappedRangeValueClamped T (T * 5) (1 / 5) 1 I * mult = impactVolume T I mult := by
  have h4 : T * 5 - T = 4 * T := by ring
  have h4pos : 0 < 4 * T := by linarith
  have hp : 0 ≤ (I - T) / (4 * T) := div_nonneg (by linarith) (le_of_lt h4pos)
  unfold FMath.GetMappedRangeValueClamped FMath.Clamp impactVolume
  rw [h4]
  rw [if_neg (not_lt.mpr hp)]
  by_cases h1 : (I - T) / (4 * T) < 1
  · rw [if_pos h1]
    have ha : mult * (1 / 5) ≤ mult * (1 / 5 + 4 / 5 * ((I - T) / (4 * T))) := by
      apply mul_le_mul_of_nonneg_left _ hm
      linarith
    have hb : mult * (1 / 5 + 4 / 5 * ((I - T) / (4 * T))) ≤ mult * 1 := by
      apply mul_le_mul_of_nonneg_left _ hm
      linarith
    rw [min_eq_right hb, max_eq_right ha]
    ring
  · rw [if_neg h1]
    have h1' : 1 ≤ (I - T) / (4 * T) := not_lt.mp h1
    have hb : mult * 1 ≤ mult * (1 / 5 + 4 / 5 * ((I - T) / (4 * T))) := by
      apply mul_le_mul_of_nonneg_left _ hm
      linarith
    have ha : mult * (1 / 5) ≤ mult * 1 := by
      apply mul_le_mul_of_nonneg_left _ hm
      norm_num
    rw [min_eq_left hb, max_eq_right ha]
    ring

theorem impactVolume_facts (T I mult : ℚ) (hT : 0 < T) (hm : 0 ≤ mult) :
    (1 / 5 * mult ≤ impactVolume T I mult ∧ impactVolume T I mult ≤ 1 * mult)
    ∧ (I = T → impactVolume T I mult = 1 / 5 * mult)
    ∧ (5 * T ≤ I → impactVolume T I mult = 1 * mult) := by
  have h4pos : 0 < 4 * T := by linarith
  have ha : mult * (1 / 5) ≤ mult * 1 := by
    apply mul_le_mul_of_nonneg_left _ hm
    norm_num
  unfold impactVolume
  refine ⟨⟨?_, ?_⟩, fun h => ?_, fun h => ?_⟩
  · have := le_max_left (mult * (1 / 5))
      (min (mult * 1) (mult * (1 / 5 + 4 / 5 * ((I - T) / (4 * T)))))
    linarith
  · have := max_le ha (min_le_left (mult * 1) (mult * (1 / 5 + 4 / 5 * ((I - T) / (4 * T)))))
    linarith
  · subst h
    have : mult * (1 / 5 + 4 / 5 * ((I - I) / (4 * I))) = mult * (1 / 5) := by
      rw [sub_self, zero_div]; ring
    rw [this, min_eq_right ha, max_self]; ring
  · have h1 : 1 ≤ (I - T) / (4 * T) := by
      rw [le_div_iff₀ h4pos]; linarith
    have hb : mult * 1 ≤ mult * (1 / 5 + 4 / 5 * ((I - T) / (4 * T))) := by
      apply mul_le_mul_of_nonneg_left _ hm
      linarith
    rw [min_eq_left hb, max_eq_right ha]; ring

theorem gridEngine_Size_axis (n : ℕ) : gridEngine.Size ⟨(n : ℚ), 0, 0⟩ = n := by
  have h : FVector.SizeSquared ⟨(n : ℚ), 0, 0⟩ = (n : ℚ) * n := by
    simp [FVector.SizeSquared]
  unfold FEngine.Size
  rw [h, gridEngine_Sqrt_sq]

/-- C10. For a hit that passes the cooldown gate, with threshold T > 0 and a resolved entry
that has a sound and a multiplier m ≥ 0: the intensity I is the impulse magnitude divided by
the mass of the body when the mass is > 0 and the raw magnitude otherwise; the hit is
discarded (state unchanged) if I < T and accepted if I ≥ T, in which case exactly one sound
is played at the impact point, with volume m × (0.2 + 0.8 × (I − T) / (4T)) clamped to
[0.2 m, 1.0 m], and the time of the hit is recorded; that volume lies in [0.2 m, 1.0 m], is
0.2 m at I = T and 1.0 m for every I ≥ 5T. -/
theorem impact_threshold_and_volume (E : FEngine) (W : UWorld) (NormalImpulse : FVector)
    (Hit : FHitResult) (Pitch : ℚ) (s : UPhysicsPropComponent) (Table : UPropPhysicsImpactData)
    (Sound : Nat) (ht : s.ImpactTable = some Table)
    (hc : ¬ W.TimeSeconds - s.LastImpactTime < s.ImpactCooldown)
    (hT : 0 < s.MinImpactThreshold)
    (hsnd : (resolvedEntry Table Hit).ImpactSound = some Sound)
    (hmul : 0 ≤ (resolvedEntry Table Hit).VolumeMultiplier) :
    (∀ b, s.ManagedMesh = some b →
      (b.Mass > 0 →
        impactIntensity E NormalImpulse s.ManagedMesh = E.Size NormalImpulse / b.Mass)
      ∧ (¬ b.Mass > 0 → impactIntensity E NormalImpulse s.ManagedMesh = E.Size NormalImpulse))
    ∧ (impactIntensity E NormalImpulse s.ManagedMesh < s.MinImpactThreshold →
        s.OnComponentHit E (some W) NormalImpulse Hit Pitch = s)
    ∧ (s.MinImpactThreshold ≤ impactIntensity E NormalImpulse s.ManagedMesh →
        (s.OnComponentHit E (some W) NormalImpulse Hit Pitch).Log
            = s.Log ++ [ECall.PlaySoundAtLocation Sound Hit.ImpactPoint
                (impactVolume s.MinImpactThreshold
                  (impactIntensity E NormalImpulse s.ManagedMesh)
                  (resolvedEntry Table Hit).VolumeMultiplier) Pitch]
        ∧ (s.OnComponentHit E (some W) NormalImpulse Hit Pitch).LastImpactTime = W.TimeSeconds)
    ∧ (∀ I : ℚ,
        (1 / 5 * (resolvedEntry Table Hit).VolumeMultiplier
            ≤ impactVolume s.MinImpactThreshold I (resolvedEntry Table Hit).VolumeMultiplier
          ∧ impactVolume s.MinImpactThreshold I (resolvedEntry Table Hit).VolumeMultiplier
            ≤ 1 * (resolvedEntry Table Hit).VolumeMultiplier)
        ∧ (I = s.MinImpactThreshold →
            impactVolume s.MinImpactThreshold I (resolvedEntry Table Hit).VolumeMultiplier
              = 1 / 5 * (resolvedEntry Table Hit).VolumeMultiplier)
        ∧ (5 * s.MinImpactThreshold ≤ I →
            impactVolume s.MinImpactThreshold I (resolvedEntry Table Hit).VolumeMultiplier
              = 1 * (resolvedEntry Table Hit).VolumeMultiplier)) := by
  refine ⟨fun b hb => ?_, fun hI => ?_, fun hI => ?_,
    fun I => impactVolume_facts _ I _ hT hmul⟩
  · rw [hb]
    constructor
    · intro hpos; simp [impactIntensity, hpos]
    · intro hneg; simp only [impactIntensity, hneg, if_false]
  · rw [OnComponentHit_gate E W NormalImpulse Hit Pitch s Table ht hc, if_pos hI]
  · rw [OnComponentHit_gate E W NormalImpulse Hit Pitch s Table ht hc,
      if_neg (not_lt.mpr hI), hsnd, mapped_volume _ _ _ hT hI hmul]
    exact ⟨rfl, rfl⟩

/-- C10 witness: a hit of impulse magnitude 20000 on the sample body of mass 2 has intensity
10000, the threshold: it is accepted and played at volume 0.2 × 1. -/
theorem impact_threshold_and_volume_witness :
    (audioProp.OnComponentHit gridEngine (some (worldAt 2)) ⟨20000, 0, 0⟩ sampleHit 1).Log
        = [ECall.PlaySoundAtLocation 10 ⟨0, 0, 0⟩ (1 / 5) 1]
    ∧ (audioProp.OnComponentHit gridEngine (some (worldAt 2)) ⟨20000, 0, 0⟩
        sampleHit 1).LastImpactTime = 2 := by
  have hI : impactIntensity gridEngine ⟨20000, 0, 0⟩ audioProp.ManagedMesh = 10000 := by
    have := gridEngine_Size_axis 20000
    norm_num at this
    norm_num [impactIntensity, audioProp, idleProp, sampleMesh, this]
  have he : resolvedEntry sampleTable sampleHit = sampleTable.DefaultSound := by
    simp [resolvedEntry, UPropPhysicsImpactData.Find, sampleTable, sampleHit]
  have h := impact_threshold_and_volume gridEngine (worldAt 2) ⟨20000, 0, 0⟩ sampleHit 1
    audioProp sampleTable 10 rfl
    (by norm_num [worldAt, sampleWorld, audioProp, idleProp, fresh])
    (by norm_num [audioProp, idleProp, fresh])
    (by rw [he]; rfl) (by rw [he]; norm_num [sampleTable])
  have hv := (h.2.2.2 10000).2.1 rfl
  have hacc := h.2.2.1 (by rw [hI]; norm_num [audioProp, idleProp, fresh])
  rw [hI] at hacc
  rw [hacc.1, hacc.2, hv, he]
  norm_num [audioProp, idleProp, fresh, sampleTable, sampleHit, worldAt, sampleWorld]

/-- C9 failing input. The sample prop has accepted no impact yet (timestamp 0, cooldown
0.1). A hit at time 0.05 with intensity 20000, above the threshold 10000, is discarded: no
sound, timestamp unchanged. A second hit at time 0.2, more than the cooldown after the
first, is accepted. -/
theorem first_hit_before_cooldown_elapsed_discarded :
    audioProp.LastImpactTime = 0 ∧ audioProp.ImpactCooldown = 1 / 10
    ∧ audioProp.MinImpactThreshold ≤ impactIntensity gridEngine ⟨40000, 0, 0⟩ audioProp.ManagedMesh
    ∧ (1 / 5 : ℚ) - 1 / 20 > audioProp.ImpactCooldown
    ∧ audioProp.OnComponentHit gridEngine (some (worldAt (1 / 20))) ⟨40000, 0, 0⟩ sampleHit 1
        = audioProp
    ∧ ((audioProp.OnComponentHit gridEngine (some (worldAt (1 / 20))) ⟨40000, 0, 0⟩
          sampleHit 1).OnComponentHit gridEngine (some (worldAt (1 / 5))) ⟨40000, 0, 0⟩
          sampleHit 1).Log
        = [ECall.PlaySoundAtLocation 10 ⟨0, 0, 0⟩ (2 / 5) 1] := by
  have hI : impactIntensity gridEngine ⟨40000, 0, 0⟩ audioProp.ManagedMesh = 20000 := by
    have := gridEngine_Size_axis 40000
    norm_num at this
    norm_num [impactIntensity, audioProp, idleProp, sampleMesh, this]
  have he : resolvedEntry sampleTable sampleHit = sampleTable.DefaultSound := by
    simp [resolvedEntry, UPropPhysicsImpactData.Find, sampleTable, sampleHit]
  have h1 : audioProp.OnComponentHit gridEngine (some (worldAt (1 / 20))) ⟨40000, 0, 0⟩
      sampleHit 1 = audioProp := by
    apply OnComponentHit_cooldown
    intro W hW
    cases hW
    norm_num [worldAt, sampleWorld, audioProp, idleProp, fresh]
  refine ⟨rfl, rfl, ?_, ?_, h1, ?_⟩
  · rw [hI]; norm_num [audioProp, idleProp, fresh]
  · norm_num [audioProp, idleProp, fresh]
  · rw [h1, OnComponentHit_gate gridEngine (worldAt (1 / 5)) ⟨40000, 0, 0⟩ sampleHit 1
      audioProp sampleTable rfl
      (by norm_num [worldAt, sampleWorld, audioProp, idleProp, fresh]), hI, he]
    norm_num [audioProp, idleProp, fresh, sampleTable, sampleHit, call,
      FMath.GetMappedRangeValueClamped, FMath.Clamp]

theorem Tick_disabled (E : FEngine) (W : UWorld) (s : UPhysicsPropComponent)
    (hT : s.CCDSpeedThreshold ≤ 0) : s.TickComponent E W = s := by
  unfold TickComponent
  rcases s.ManagedMesh with _ | m
  · rfl
  · simp [hT]

/-- C11 failing input. The held sample prop, whose hold point is 30 units ahead of it, is
ticked with `CCDSpeedThreshold = 0`: the tick returns the state as it is and issues no call,
so the prop is not moved. The same prop ticked with the default threshold 500 is moved a
third of the way towards the hold point (180, 0, 0). -/
theorem tick_with_ccd_disabled_skips_grab_logic :
    carriedProp.bIsGrabbed = true ∧ carriedProp.CurrentHolder = some (holderAt 30)
    ∧ carriedProp.ManagedMesh.isSome = true
    ∧ (holderAt 30).ComponentLocation.add ((holderAt 30).ForwardVector.scale
        carriedProp.HoldDistance) = ⟨180, 0, 0⟩
    ∧ ({ carriedProp with CCDSpeedThreshold := 0 } : UPhysicsPropComponent).TickComponent
        gridEngine sampleWorld = { carriedProp with CCDSpeedThreshold := 0 }
    ∧ (({ carriedProp with CCDSpeedThreshold := 0 } : UPhysicsPropComponent).TickComponent
        gridEngine sampleWorld).Log = []
    ∧ (carriedProp.TickComponent gridEngine sampleWorld).Log
        = [ECall.SetActorLocationAndRotation ⟨160, 0, 0⟩ ⟨0, 0, 0⟩ true] := by
  refine ⟨rfl, rfl, rfl, ?_, ?_, ?_, ?_⟩
  · norm_num [holderAt, sampleHolder, carriedProp, heldProp, FVector.add, FVector.scale]
  · exact Tick_disabled _ _ _ (le_refl _)
  · rw [Tick_disabled _ _ _ (le_refl _)]; rfl
  · norm_num [TickComponent, UpdateGrabbedPosition, carriedProp, heldProp, idleProp, fresh,
      sampleMesh, sampleOwner, sampleWorld, holderAt, sampleHolder, samplePawn, gridEngine,
      call, FVector.SizeSquared, FVector.add, FVector.sub, FVector.scale, FMath.Clamp]

/-- With the cull distance at 0 or below, `Physicalize` keeps the timer handle and logs no
culling call. -/
theorem Physicalize_noCull (T : Option UStaticMeshComponent) (r : ℚ)
    (s : UPhysicsPropComponent) (hc : s.PhysicsCullDistance ≤ 0) :
    (s.Physicalize T r).PhysicsCullDistance = s.PhysicsCullDistance
    ∧ (s.Physicalize T r).TimerHandle_DistanceCheck = s.TimerHandle_DistanceCheck
    ∧ (s.Physicalize T r).Log.filter ECall.isCull = s.Log.filter ECall.isCull := by
  rcases T with _ | m
  · exact ⟨rfl, rfl, rfl⟩
  · have hn : ¬ s.PhysicsCullDistance > 0 := not_lt.mpr hc
    simp [Physicalize, hn, ECall.isCull]

theorem Grab_noCull (E : FEngine) (H : Option USceneComponent) (s : UPhysicsPropComponent) :
    (s.Grab E H).PhysicsCullDistance = s.PhysicsCullDistance
    ∧ (s.Grab E H).TimerHandle_DistanceCheck = s.TimerHandle_DistanceCheck
    ∧ (s.Grab E H).Log.filter ECall.isCull = s.Log.filter ECall.isCull := by
  rcases H with _ | h
  · rw [Grab_noop E none s (Or.inl rfl)]; exact ⟨rfl, rfl, rfl⟩
  · rcases hm : s.ManagedMesh with _ | m
    · rw [Grab_noop E _ s (Or.inr hm)]; exact ⟨rfl, rfl, rfl⟩
    · unfold Grab
      rw [hm]
      rcases ho : h.Owner with _ | a
      · simp [ho, hm, ECall.isCull]
      · by_cases hp : a.IsPawn = true
        · simp [ho, hm, hp, ECall.isCull]
        · simp [ho, hm, hp, ECall.isCull]

theorem Drop_noCull (s : UPhysicsPropComponent) :
    (s.Drop).PhysicsCullDistance = s.PhysicsCullDistance
    ∧ (s.Drop).TimerHandle_DistanceCheck = s.TimerHandle_DistanceCheck
    ∧ (s.Drop).Log.filter ECall.isCull = s.Log.filter ECall.isCull := by
  rcases hg : s.bIsGrabbed with _ | _
  · rw [Drop_noop s (Or.inl hg)]; exact ⟨rfl, rfl, rfl⟩
  · rcases hm : s.ManagedMesh with _ | m
    · rw [Drop_noop s (Or.inr hm)]; exact ⟨rfl, rfl, rfl⟩
    · unfold Drop
      rcases hh : s.CurrentHolder with _ | h
      · simp [hg, hm, hh, ECall.isCull]
      · rcases ho : h.Owner with _ | a
        · simp [hg, hm, hh, ho, ECall.isCull]
        · by_cases hp : a.IsPawn = true
          · simp [hg, hm, hh, ho, hp, ECall.isCull]
          · simp [hg, hm, hh, ho, hp, ECall.isCull]

theorem Throw_noCull (E : FEngine) (d : FVector) (f : ℚ) (s : UPhysicsPropComponent) :
    (s.Throw E d f).PhysicsCullDistance = s.PhysicsCullDistance
    ∧ (s.Throw E d f).TimerHandle_DistanceCheck = s.TimerHandle_DistanceCheck
    ∧ (s.Throw E d f).Log.filter ECall.isCull = s.Log.filter ECall.isCull := by
  rcases hg : s.bIsGrabbed with _ | _
  · rw [Throw_noop E d f s (Or.inl hg)]; exact ⟨rfl, rfl, rfl⟩
  · rcases hm : s.ManagedMesh with _ | m
    · rw [Throw_noop E d f s (Or.inr hm)]; exact ⟨rfl, rfl, rfl⟩
    · rw [Throw_held E d f m s hg hm]
      obtain ⟨e1, e2, e3⟩ := Drop_noCull s
      refine ⟨e1, e2, ?_⟩
      rw [call_Log, List.filter_append, e3]
      simp [ECall.isCull]

theorem UpdateGrabbedPosition_noCull (E : FEngine) (W : UWorld) (s : UPhysicsPropComponent) :
    (s.UpdateGrabbedPosition E W).PhysicsCullDistance = s.PhysicsCullDistance
    ∧ (s.UpdateGrabbedPosition E W).TimerHandle_DistanceCheck = s.TimerHandle_DistanceCheck
    ∧ (s.UpdateGrabbedPosition E W).Log.filter ECall.isCull = s.Log.filter ECall.isCull := by
  rcases UpdateGrabbedPosition_shape E W s with h | ⟨l, r, h⟩
  · rw [h]; exact ⟨rfl, rfl, rfl⟩
  · rw [h]
    refine ⟨rfl, rfl, ?_⟩
    simp [ECall.isCull]

theorem Tick_noCull (E : FEngine) (W : UWorld) (s : UPhysicsPropComponent) :
    (s.TickComponent E W).PhysicsCullDistance = s.PhysicsCullDistance
    ∧ (s.TickComponent E W).TimerHandle_DistanceCheck = s.TimerHandle_DistanceCheck
    ∧ (s.TickComponent E W).Log.filter ECall.isCull = s.Log.filter ECall.isCull := by
  unfold TickComponent
  rcases s.ManagedMesh with _ | m
  · exact ⟨rfl, rfl, rfl⟩
  · simp only []
    split_ifs
    · exact ⟨rfl, rfl, rfl⟩
    · obtain ⟨e1, e2, e3⟩ := UpdateGrabbedPosition_noCull E W
        (s.call (ECall.SetUseCCD (decide (m.ComponentVelocity.SizeSquared
          > s.CCDSpeedThreshold * s.CCDSpeedThreshold))))
      rw [e1, e2, e3]
      simp [ECall.isCull]
    · simp [ECall.isCull]
    · exact UpdateGrabbedPosition_noCull E W s
    · exact ⟨rfl, rfl, rfl⟩

theorem step_noCull (E : FEngine) (e : EEvent) (s : UPhysicsPropComponent)
    (hc : s.PhysicsCullDistance ≤ 0) (ht : s.TimerHandle_DistanceCheck = none) :
    (e.step E s).PhysicsCullDistance = s.PhysicsCullDistance
    ∧ (e.step E s).TimerHandle_DistanceCheck = s.TimerHandle_DistanceCheck
    ∧ (e.step E s).Log.filter ECall.isCull = s.Log.filter ECall.isCull := by
  cases e with
  | Op o =>
    cases o with
    | Physicalize T r => exact Physicalize_noCull T r s hc
    | Grab H => exact Grab_noCull E H s
    | Drop => exact Drop_noCull s
    | Throw d f => exact Throw_noCull E d f s
    | Tick W => exact Tick_noCull E W s
  | TimerFire World =>
    simp [EEvent.step, ht]

theorem runEvents_noCull (E : FEngine) (events : List EEvent) (s : UPhysicsPropComponent)
    (hc : s.PhysicsCullDistance ≤ 0) (ht : s.TimerHandle_DistanceCheck = none) :
    (runEvents E events s).PhysicsCullDistance = s.PhysicsCullDistance
    ∧ (runEvents E events s).TimerHandle_DistanceCheck = none
    ∧ (runEvents E events s).Log.filter ECall.isCull = s.Log.filter ECall.isCull := by
  induction events generalizing s with
  | nil => exact ⟨rfl, ht, rfl⟩
  | cons e rest ih =>
    obtain ⟨e1, e2, e3⟩ := step_noCull E e s hc ht
    obtain ⟨i1, i2, i3⟩ := ih (e.step E s) (by rw [e1]; exact hc) (by rw [e2]; exact ht)
    simp only [runEvents, List.foldl_cons] at i1 i2 i3 ⊢
    exact ⟨by rw [i1, e1], i2, by rw [i3, e3]⟩

/-- The sentinel as `Physicalize` implements it. For a prop whose `PhysicsCullDistance` is 0
and whose distance timer is not set, `Physicalize` starts no timer; hence in every run of
Physicalize, Grab, Drop, Throw, tick and timer events the timer stays unset, the timer never
invokes the proximity evaluation, and no culling call is issued: no force-sleep, no tick
interval set to the coarse rate, no timer start. -/
theorem cull_distance_zero_never_schedules (E : FEngine) (s : UPhysicsPropComponent)
    (hc : s.PhysicsCullDistance = 0) (ht : s.TimerHandle_DistanceCheck = none) :
    (∀ (T : Option UStaticMeshComponent) (r : ℚ),
      (s.Physicalize T r).TimerHandle_DistanceCheck = none
      ∧ (s.Physicalize T r).Log.filter ECall.isCull = s.Log.filter ECall.isCull)
    ∧ ∀ events : List EEvent,
        (runEvents E events s).PhysicsCullDistance = 0
        ∧ (runEvents E events s).TimerHandle_DistanceCheck = none
        ∧ (∀ World, EEvent.step E (.TimerFire World) (runEvents E events s)
            = runEvents E events s)
        ∧ (runEvents E events s).Log.filter ECall.isCull = s.Log.filter ECall.isCull := by
  refine ⟨fun T r => ?_, fun events => ?_⟩
  · obtain ⟨_, e2, e3⟩ := Physicalize_noCull T r s (le_of_eq hc)
    exact ⟨by rw [e2, ht], e3⟩
  · obtain ⟨e1, e2, e3⟩ := runEvents_noCull E events s (le_of_eq hc) ht
    refine ⟨by rw [e1, hc], e2, fun World => ?_, e3⟩
    simp only [EEvent.step, e2]

/-- An instance of the previous theorem: a fresh prop with cull distance 0 is physicalized, the
timer manager is polled with a view point 3001 units away, the prop is grabbed and ticked:
the timer is unset and no culling call has been issued. -/
theorem cull_distance_zero_never_schedules_sample :
    (runEvents gridEngine
        [EEvent.Op (EOp.Physicalize (some sampleMesh) (1 / 4)),
          EEvent.TimerFire (some (worldViewedFrom ⟨3151, 0, 0⟩)),
          EEvent.Op (EOp.Grab (some sampleHolder)), EEvent.Op (EOp.Tick sampleWorld)]
        { fresh sampleOwner none with PhysicsCullDistance := 0 }).TimerHandle_DistanceCheck
      = none
    ∧ (runEvents gridEngine
        [EEvent.Op (EOp.Physicalize (some sampleMesh) (1 / 4)),
          EEvent.TimerFire (some (worldViewedFrom ⟨3151, 0, 0⟩)),
          EEvent.Op (EOp.Grab (some sampleHolder)), EEvent.Op (EOp.Tick sampleWorld)]
        { fresh sampleOwner none with PhysicsCullDistance := 0 }).Log.filter ECall.isCull
      = [] :=
  ⟨((cull_distance_zero_never_schedules gridEngine
      { fresh sampleOwner none with PhysicsCullDistance := 0 } rfl rfl).2 _).2.1,
   ((cull_distance_zero_never_schedules gridEngine
      { fresh sampleOwner none with PhysicsCullDistance := 0 } rfl rfl).2 _).2.2.2⟩

theorem Grab_detail (E : FEngine) (h : USceneComponent) (b : AActor)
    (m : UStaticMeshComponent) (s : UPhysicsPropComponent)
    (hm : s.ManagedMesh = some m) (ho : h.Owner = some b) :
    (s.Grab E (some h)).ManagedMesh
        = some { m with
            bSimulatePhysics := false
            MoveIgnoreActors := if b.Id ∈ m.MoveIgnoreActors then m.MoveIgnoreActors
                                else m.MoveIgnoreActors ++ [b.Id] }
    ∧ (s.Grab E (some h)).Log
        = s.Log ++ [ECall.SetSimulatePhysics false, ECall.IgnoreActorWhenMoving b.Id true]
            ++ (if b.IsPawn = true then [ECall.MoveIgnoreActorAdd b.Id s.Owner.Id] else [])
            ++ [ECall.SetComponentTickEnabled true]
    ∧ (s.Grab E (some h)).Owner = s.Owner := by
  unfold Grab
  rw [hm]
  by_cases hp : b.IsPawn = true
  · simp [ho, hm, hp, UStaticMeshComponent.apply]
  · simp [ho, hm, hp, UStaticMeshComponent.apply]

theorem Drop_detail (h : USceneComponent) (b : AActor) (m : UStaticMeshComponent)
    (s : UPhysicsPropComponent) (hg : s.bIsGrabbed = true) (hh : s.CurrentHolder = some h)
    (ho : h.Owner = some b) (hm : s.ManagedMesh = some m) :
    (s.Drop).ManagedMesh
        = some { m with
            bSimulatePhysics := true
            MoveIgnoreActors := m.MoveIgnoreActors.erase b.Id
            bAwake := true }
    ∧ (s.Drop).Log
        = s.Log ++ [ECall.SetSimulatePhysics true, ECall.SetPhysicsLinearVelocity b.Velocity,
              ECall.IgnoreActorWhenMoving b.Id false]
            ++ (if b.IsPawn = true then [ECall.MoveIgnoreActorRemove b.Id s.Owner.Id] else [])
            ++ [ECall.WakeAllRigidBodies] := by
  unfold Drop
  by_cases hp : b.IsPawn = true
  · simp [hg, hm, hh, ho, hp, UStaticMeshComponent.apply]
  · simp [hg, hm, hh, ho, hp, UStaticMeshComponent.apply]

theorem mem_addUnique (x b : Nat) (L : List Nat) (hx : x ∈ L) :
    x ∈ (if b ∈ L then L else L ++ [b]) := by
  split_ifs
  · exact hx
  · exact List.mem_append_left _ hx

theorem self_mem_addUnique (b : Nat) (L : List Nat) :
    b ∈ (if b ∈ L then L else L ++ [b]) := by
  split_ifs with h
  · exact h
  · simp

/-- C13. `Grab` does not look at the grab state. In a held state with holder A and a body,
`Grab` with a holder B whose owning actor differs from the owning actor of A succeeds: the prop
is held by B, `HoldDistance` is the clamped distance from B to the body, the actor of B is in
the move-ignore set of the body and every actor that was in the set, the actor of A among
them, still is. The following `Drop` clears the grab state and issues the ignore removal
for the actor of B only: the set loses the actor of B and keeps the actor of A. So from an
idle state whose set does not hold the actor of A, Grab (A), Grab (B), Drop ends idle with
the actor of A in the set, which therefore differs from the set before the grabs. -/
theorem regrab_keeps_first_holder_ignored (E : FEngine) (A B : USceneComponent)
    (a b : AActor) (hAo : A.Owner = some a) (hBo : B.Owner = some b) (hab : a.Id ≠ b.Id) :
    (∀ (s : UPhysicsPropComponent) (m : UStaticMeshComponent),
      s.bIsGrabbed = true → s.CurrentHolder = some A → s.ManagedMesh = some m →
      (s.Grab E (some B)).bIsGrabbed = true
      ∧ (s.Grab E (some B)).CurrentHolder = some B
      ∧ (s.Grab E (some B)).HoldDistance
          = FMath.Clamp (E.Distance B.ComponentLocation m.ComponentLocation) 50 250
      ∧ ∃ m1 m2,
          (s.Grab E (some B)).ManagedMesh = some m1
          ∧ b.Id ∈ m1.MoveIgnoreActors
          ∧ (∀ x ∈ m.MoveIgnoreActors, x ∈ m1.MoveIgnoreActors)
          ∧ (s.Grab E (some B)).Drop.ManagedMesh = some m2
          ∧ m2.MoveIgnoreActors = m1.MoveIgnoreActors.erase b.Id
          ∧ (a.Id ∈ m.MoveIgnoreActors →
              a.Id ∈ m1.MoveIgnoreActors ∧ a.Id ∈ m2.MoveIgnoreActors)
          ∧ m2.bSimulatePhysics = true
          ∧ (s.Grab E (some B)).Drop.bIsGrabbed = false
          ∧ (s.Grab E (some B)).Drop.CurrentHolder = none
          ∧ (s.Grab E (some B)).Drop.Log
              = (s.Grab E (some B)).Log
                ++ [ECall.SetSimulatePhysics true, ECall.SetPhysicsLinearVelocity b.Velocity,
                    ECall.IgnoreActorWhenMoving b.Id false]
                ++ (if b.IsPawn = true then [ECall.MoveIgnoreActorRemove b.Id s.Owner.Id]
                    else [])
                ++ [ECall.WakeAllRigidBodies])
    ∧ (∀ (s0 : UPhysicsPropComponent) (m0 : UStaticMeshComponent),
        s0.bIsGrabbed = false → s0.ManagedMesh = some m0 → a.Id ∉ m0.MoveIgnoreActors →
        ((s0.Grab E (some A)).Grab E (some B)).Drop.bIsGrabbed = false
        ∧ ∃ m2, ((s0.Grab E (some A)).Grab E (some B)).Drop.ManagedMesh = some m2
            ∧ a.Id ∈ m2.MoveIgnoreActors
            ∧ m2.MoveIgnoreActors ≠ m0.MoveIgnoreActors) := by
  have part1 : ∀ (s : UPhysicsPropComponent) (m : UStaticMeshComponent),
      s.bIsGrabbed = true → s.CurrentHolder = some A → s.ManagedMesh = some m →
      (s.Grab E (some B)).bIsGrabbed = true
      ∧ (s.Grab E (some B)).CurrentHolder = some B
      ∧ (s.Grab E (some B)).HoldDistance
          = FMath.Clamp (E.Distance B.ComponentLocation m.ComponentLocation) 50 250
      ∧ ∃ m1 m2,
          (s.Grab E (some B)).ManagedMesh = some m1
          ∧ b.Id ∈ m1.MoveIgnoreActors
          ∧ (∀ x ∈ m.MoveIgnoreActors, x ∈ m1.MoveIgnoreActors)
          ∧ (s.Grab E (some B)).Drop.ManagedMesh = some m2
          ∧ m2.MoveIgnoreActors = m1.MoveIgnoreActors.erase b.Id
          ∧ (a.Id ∈ m.MoveIgnoreActors →
              a.Id ∈ m1.MoveIgnoreActors ∧ a.Id ∈ m2.MoveIgnoreActors)
          ∧ m2.bSimulatePhysics = true
          ∧ (s.Grab E (some B)).Drop.bIsGrabbed = false
          ∧ (s.Grab E (some B)).Drop.CurrentHolder = none
          ∧ (s.Grab E (some B)).Drop.Log
              = (s.Grab E (some B)).Log
                ++ [ECall.SetSimulatePhysics true, ECall.SetPhysicsLinearVelocity b.Velocity,
                    ECall.IgnoreActorWhenMoving b.Id false]
                ++ (if b.IsPawn = true then [ECall.MoveIgnoreActorRemove b.Id s.Owner.Id]
                    else [])
                ++ [ECall.WakeAllRigidBodies] := by
    intro s m _ _ hm
    obtain ⟨g1, g2, g3, _⟩ := Grab_fields E B m s hm
    obtain ⟨d1, _, d3⟩ := Grab_detail E B b m s hm hBo
    obtain ⟨f1, f2⟩ := Drop_detail B b _ (s.Grab E (some B)) g1 g2 hBo d1
    obtain ⟨k1, k2, _, _⟩ := Drop_fields _ (s.Grab E (some B)) g1 d1
    refine ⟨g1, g2, g3, _, _, d1, self_mem_addUnique _ _, fun x hx => mem_addUnique x _ _ hx,
      f1, rfl, fun ha => ⟨mem_addUnique _ _ _ ha, ?_⟩, rfl, k1, k2, ?_⟩
    · exact (List.mem_erase_of_ne hab).mpr (mem_addUnique _ _ _ ha)
    · rw [f2, d3]
  refine ⟨part1, fun s0 m0 hg0 hm0 hna => ?_⟩
  obtain ⟨g1, g2, _, _⟩ := Grab_fields E A m0 s0 hm0
  obtain ⟨d1, _, _⟩ := Grab_detail E A a m0 s0 hm0 hAo
  obtain ⟨_, _, _, m1, m2, _, _, _, e4, _, e6, _, e8, _, _⟩ :=
    part1 (s0.Grab E (some A)) _ g1 g2 d1
  have ha2 : a.Id ∈ m2.MoveIgnoreActors := (e6 (self_mem_addUnique _ _)).2
  refine ⟨e8, m2, e4, ha2, fun heq => hna ?_⟩
  rw [← heq]
  exact ha2

/-- C13 witness: the held sample prop (holder of pawn 7) is grabbed through the holder of
pawn 8; and the idle sample prop is grabbed through both holders in turn and dropped. -/
theorem regrab_keeps_first_holder_ignored_witness :
    ((heldProp.Grab gridEngine (some otherHolder)).bIsGrabbed = true
      ∧ (heldProp.Grab gridEngine (some otherHolder)).CurrentHolder = some otherHolder
      ∧ (heldProp.Grab gridEngine (some otherHolder)).HoldDistance
          = FMath.Clamp (gridEngine.Distance otherHolder.ComponentLocation
              (({ sampleMesh with bSimulatePhysics := false, MoveIgnoreActors := [7] } :
                UStaticMeshComponent)).ComponentLocation) 50 250)
    ∧ (((idleProp.Grab gridEngine (some sampleHolder)).Grab gridEngine
          (some otherHolder)).Drop.bIsGrabbed = false
      ∧ ∃ m2, ((idleProp.Grab gridEngine (some sampleHolder)).Grab gridEngine
            (some otherHolder)).Drop.ManagedMesh = some m2
          ∧ samplePawn.Id ∈ m2.MoveIgnoreActors
          ∧ m2.MoveIgnoreActors ≠ sampleMesh.MoveIgnoreActors) := by
  have h := regrab_keeps_first_holder_ignored gridEngine sampleHolder otherHolder samplePawn
    otherPawn rfl rfl (by decide)
  obtain ⟨g1, g2, g3, _⟩ := h.1 heldProp _ rfl rfl rfl
  exact ⟨⟨g1, g2, g3⟩, h.2 idleProp sampleMesh rfl rfl (by simp [sampleMesh])⟩

theorem gridEngine_GetSafeNormal_axis (n : ℕ) (hn : 0 < n) :
    gridEngine.GetSafeNormal ⟨(n : ℚ), 0, 0⟩ = ⟨1, 0, 0⟩ := by
  have h : FVector.SizeSquared ⟨(n : ℚ), 0, 0⟩ = (n : ℚ) * n := by
    simp [FVector.SizeSquared]
  have hs : gridEngine.Sqrt (FVector.SizeSquared ⟨(n : ℚ), 0, 0⟩) = n := by
    rw [h, gridEngine_Sqrt_sq]
  have hne : (n : ℚ) ≠ 0 := by exact_mod_cast hn.ne'
  show (if gridEngine.Sqrt (FVector.SizeSquared ⟨(n : ℚ), 0, 0⟩) = 0 then FVector.ZeroVector
    else FVector.scale ⟨(n : ℚ), 0, 0⟩
      (1 / gridEngine.Sqrt (FVector.SizeSquared ⟨(n : ℚ), 0, 0⟩))) = ⟨1, 0, 0⟩
  rw [hs, if_neg hne]
  simp [FVector.scale, hne]

theorem gridEngine_GetSafeNormal_zero :
    gridEngine.GetSafeNormal ⟨0, 0, 0⟩ = FVector.ZeroVector := by
  have hs : gridEngine.Sqrt (FVector.SizeSquared ⟨0, 0, 0⟩) = 0 := by
    have := gridEngine_Sqrt_sq 0
    simpa [FVector.SizeSquared] using this
  show (if gridEngine.Sqrt (FVector.SizeSquared ⟨0, 0, 0⟩) = 0 then FVector.ZeroVector
    else FVector.scale ⟨0, 0, 0⟩
      (1 / gridEngine.Sqrt (FVector.SizeSquared ⟨0, 0, 0⟩))) = FVector.ZeroVector
  rw [if_pos hs]

/-- C1 counterexample. The held sample prop thrown with force 800 along the zero direction:
the safe normal of the zero vector is the zero vector, so the impulse handed over after the
calls of `Drop` is (0, 0, 0), whose squared length is not 800². Thrown with force −800 along
(1, 0, 0) the impulse is (−800, 0, 0), of length 800, not −800. -/
theorem throw_impulse_magnitude_not_force :
    heldProp.bIsGrabbed = true ∧ heldProp.ManagedMesh.isSome = true
    ∧ (Throw gridEngine ⟨0, 0, 0⟩ 800 heldProp).Log
        = (Drop heldProp).Log ++ [ECall.AddImpulse ⟨0, 0, 0⟩ none true]
    ∧ FVector.SizeSquared ⟨0, 0, 0⟩ ≠ 800 ^ 2
    ∧ (Throw gridEngine ⟨1, 0, 0⟩ (-800) heldProp).Log
        = (Drop heldProp).Log ++ [ECall.AddImpulse ⟨-800, 0, 0⟩ none true]
    ∧ gridEngine.Size ⟨-800, 0, 0⟩ = 800
    ∧ gridEngine.Size ⟨-800, 0, 0⟩ ≠ -800 := by
  have hsize : gridEngine.Size ⟨-800, 0, 0⟩ = 800 := by
    have h : FVector.SizeSquared ⟨-800, 0, 0⟩ = ((800 : ℕ) : ℚ) * (800 : ℕ) := by
      norm_num [FVector.SizeSquared]
    unfold FEngine.Size
    rw [h, gridEngine_Sqrt_sq]
    norm_num
  have h1 := gridEngine_GetSafeNormal_axis 1 (by norm_num)
  norm_num at h1
  refine ⟨rfl, rfl, ?_, ?_, ?_, hsize, ?_⟩
  · rw [Throw_held gridEngine ⟨0, 0, 0⟩ 800 _ heldProp rfl rfl, call_Log,
      gridEngine_GetSafeNormal_zero]
    norm_num [FVector.ZeroVector, FVector.scale]
  · norm_num [FVector.SizeSquared]
  · rw [Throw_held gridEngine ⟨1, 0, 0⟩ (-800) _ heldProp rfl rfl, call_Log, h1]
    norm_num [FVector.scale]
  · rw [hsize]; norm_num

/-- C1 amended. In a state where the prop is held and the body is present, `Throw` is `Drop`
followed by exactly one more call, the centre-of-mass velocity-change impulse
`GetSafeNormal (Direction) * Force`: the log is the log of `Drop` with that call appended
and every other field is as `Drop` leaves it. The squared length of the impulse is the
squared length of the safe normal times `Force²`: it is `Force²` whenever the safe normal
has unit length, and the impulse is the zero vector when the safe normal is. In a state
where the prop is not held `Throw` returns the state as it is (nothing logged). -/
theorem throw_eq_drop_then_impulse (E : FEngine) (Direction : FVector) (Force : ℚ)
    (s : UPhysicsPropComponent) :
    (s.bIsGrabbed = true → s.ManagedMesh.isSome = true →
      (Throw E Direction Force s).Log
          = (Drop s).Log ++ [ECall.AddImpulse ((E.GetSafeNormal Direction).scale Force) none true]
        ∧ { Throw E Direction Force s with Log := (Drop s).Log } = Drop s
        ∧ ((E.GetSafeNormal Direction).scale Force).SizeSquared
            = (E.GetSafeNormal Direction).SizeSquared * Force ^ 2
        ∧ ((E.GetSafeNormal Direction).SizeSquared = 1 →
            ((E.GetSafeNormal Direction).scale Force).SizeSquared = Force ^ 2)
        ∧ (E.GetSafeNormal Direction = FVector.ZeroVector →
            (E.GetSafeNormal Direction).scale Force = FVector.ZeroVector))
    ∧ (s.bIsGrabbed = false → Throw E Direction Force s = s) := by
  refine ⟨fun hg hm => ⟨?_, ?_, scale_SizeSquared _ _, fun hn => ?_, fun hz => ?_⟩,
    fun hg => Throw_noop E Direction Force s (Or.inl hg)⟩
  · obtain ⟨m, hm⟩ := Option.isSome_iff_exists.mp hm
    rw [Throw_held E Direction Force m s hg hm, call_Log]
  · obtain ⟨m, hm⟩ := Option.isSome_iff_exists.mp hm
    have hd : (Drop s).ManagedMesh.map
        (UStaticMeshComponent.apply
          (ECall.AddImpulse ((E.GetSafeNormal Direction).scale Force) none true))
        = (Drop s).ManagedMesh := by
      cases (Drop s).ManagedMesh <;> simp [UStaticMeshComponent.apply]
    simp [Throw, hg, hm, call, hd]
  · rw [scale_SizeSquared, hn, one_mul]
  · rw [hz]; simp [FVector.ZeroVector, FVector.scale]

/-- C1 witness: the held sample prop thrown along (2, 0, 0), whose safe normal is the unit
vector (1, 0, 0), with force 800: the impulse is (800, 0, 0), of squared length 800²; and
the same throw on the prop while it is not held changes nothing. -/
theorem throw_eq_drop_then_impulse_witness :
    (Throw gridEngine ⟨2, 0, 0⟩ 800 heldProp).Log
        = (Drop heldProp).Log ++ [ECall.AddImpulse ⟨800, 0, 0⟩ none true]
    ∧ { Throw gridEngine ⟨2, 0, 0⟩ 800 heldProp with Log := (Drop heldProp).Log }
        = Drop heldProp
    ∧ FVector.SizeSquared ⟨800, 0, 0⟩ = 800 ^ 2
    ∧ Throw gridEngine ⟨2, 0, 0⟩ 800 idleProp = idleProp := by
  have hn : gridEngine.GetSafeNormal ⟨2, 0, 0⟩ = ⟨1, 0, 0⟩ := by
    have := gridEngine_GetSafeNormal_axis 2 (by norm_num)
    norm_num at this
    exact this
  have hsc : FVector.scale ⟨1, 0, 0⟩ 800 = ⟨800, 0, 0⟩ := by norm_num [FVector.scale]
  obtain ⟨h1, h2, _, h4, _⟩ :=
    (throw_eq_drop_then_impulse gridEngine ⟨2, 0, 0⟩ 800 heldProp).1 rfl rfl
  have h4' := h4 (by rw [hn]; norm_num [FVector.SizeSquared])
  rw [hn, hsc] at h1 h4'
  exact ⟨h1, h2, h4',
    (throw_eq_drop_then_impulse gridEngine ⟨2, 0, 0⟩ 800 idleProp).2 rfl⟩

/-- C12 failing input. A fresh prop with the default cull distance 3000 is physicalized on the
awake, simulating sample body, which starts the distance timer; its property
`PhysicsCullDistance` is then written to 0; the timer fires with the view point one unit
from the prop, above the depth floor. The evaluation does not skip culling: it issues the
force-sleep and sets the tick interval of the body to the coarse rate 1. -/
theorem timer_evaluation_culls_with_cull_distance_zero :
    timedProp.TimerHandle_DistanceCheck = some (1 + 1 / 4)
    ∧ timedPropCullZero.PhysicsCullDistance = 0
    ∧ timedPropCullZero.TimerHandle_DistanceCheck = some (1 + 1 / 4)
    ∧ ¬ timedPropCullZero.Owner.ActorLocation.Z < -20000
    ∧ (EEvent.step gridEngine (.TimerFire (some (worldViewedFrom ⟨151, 0, 0⟩)))
        timedPropCullZero).Log
        = timedPropCullZero.Log
          ++ [ECall.PutAllRigidBodiesToSleep, ECall.SetComponentTickInterval 1] := by
  have ht : timedProp.TimerHandle_DistanceCheck = some (1 + 1 / 4) := by
    norm_num [timedProp, Physicalize, fresh, call]
  have hm : timedPropCullZero.ManagedMesh = some sampleMesh := by
    norm_num [timedPropCullZero, timedProp, Physicalize, fresh, call,
      UStaticMeshComponent.apply, sampleMesh]
  have hz : ¬ timedPropCullZero.Owner.ActorLocation.Z < -20000 := by
    norm_num [timedPropCullZero, timedProp, Physicalize, fresh, call, sampleOwner]
  refine ⟨ht, rfl, ht, hz, ?_⟩
  have hstep : EEvent.step gridEngine (.TimerFire (some (worldViewedFrom ⟨151, 0, 0⟩)))
      timedPropCullZero
      = timedPropCullZero.CheckDistanceToPlayer (some (worldViewedFrom ⟨151, 0, 0⟩)) := by
    have ht' : timedPropCullZero.TimerHandle_DistanceCheck = some (1 + 1 / 4) := ht
    simp only [EEvent.step, ht']
  rw [hstep, Check_far (worldViewedFrom ⟨151, 0, 0⟩) ⟨151, 0, 0⟩ timedPropCullZero _ hm hz rfl
    (by norm_num [timedPropCullZero, timedProp, Physicalize, fresh, call, sampleOwner,
      FVector.DistSquared, FVector.SizeSquared, FVector.sub])]
  simp [sampleMesh]

end PhysicsProp
